import Mathlib

/-!
Verification of the siswrapper library (siswrapper/siswrapper.py):
a shallow embedding of the wrapper around the SIS synthesis tool.

The child SIS process is an oracle: every place the Python code talks to
the process through pexpect, the model takes a `WaitOutcome` describing
what the process did (prompt with output pages, timeout, or EOF).
Python exceptions that can escape a method are modelled with
`Except PyErr`; the session's mutable attributes (`started`,
`readsomething`, `read_path`) are an explicit `SisState` record threaded
through every operation.  Python dictionaries returned by the methods
are records whose fields are the dict keys; a key that a method's
initial dict does not carry (`warnings` in `read_eqn`) is an `Option`
that is `none`, and writing through the absent key is a `KeyError`.
-/

/-! ## Python string primitives -/

/-- The whitespace characters of Python's `str.strip()` and of the regex
class `\s` (ASCII range; the inputs of this program are ASCII). -/
def isPyWs (c : Char) : Bool :=
  c = ' ' || c = '\t' || c = '\n' || c = '\r' || c = '\x0b' || c = '\x0c'

/-- Drop the characters satisfying `p` from both ends of a list. -/
def stripList (p : Char → Bool) (cs : List Char) : List Char :=
  ((cs.dropWhile p).reverse.dropWhile p).reverse

/-- Python `s.strip()`: whitespace removed from both ends. -/
def pyStrip (s : String) : String :=
  (stripList isPyWs s.data).asString

/-- Python `s.strip('"')`: double quotes removed from both ends
(`param.strip('"')` in `parsed_exec`). -/
def pyStripQ (s : String) : String :=
  (stripList (fun c => c = '"') s.data).asString

/-- Python `s.startswith(pre)`. -/
def pyStartsWith (s pre : String) : Bool :=
  pre.data.isPrefixOf s.data

/-- Python `sub in s` (substring containment), by scanning. -/
def infixScan (needle : List Char) : List Char → Bool
  | [] => needle.isPrefixOf []
  | c :: rest => needle.isPrefixOf (c :: rest) || infixScan needle rest

/-- Python `sub in s` on strings. -/
def strContains (s sub : String) : Bool :=
  infixScan sub.data s.data

/-- `removeprefix` of siswrapper.py (PEP 616): `string` without a
leading copy of `pre` when present. -/
def pyRemovePre (string pre : String) : String :=
  if pyStartsWith string pre then (string.data.drop pre.data.length).asString
  else string

/-- `removesuffix` of siswrapper.py (PEP 616): `string` without a
trailing copy of `suf` when present and non-empty. -/
def pyRemoveSuf (string suf : String) : String :=
  if suf ≠ "" && suf.data.isSuffixOf string.data then
    (string.data.take (string.data.length - suf.data.length)).asString
  else string

/-- Python `s.split("\r\n")` on the character list: split on the
two-character separator, keeping empty pieces, non-overlapping,
left to right. -/
def splitCRLFList : List Char → List (List Char)
  | [] => [[]]
  | '\r' :: '\n' :: rest => [] :: splitCRLFList rest
  | c :: rest =>
    match splitCRLFList rest with
    | [] => [[c]]
    | l :: ls => (c :: l) :: ls

/-- Python `s.split("\r\n")`. -/
def splitCRLF (s : String) : List String :=
  (splitCRLFList s.data).map List.asString

/-- Python `"\r\n".join(v)`. -/
def joinCRLF : List String → String
  | [] => ""
  | [x] => x
  | x :: y :: rest => x ++ "\r\n" ++ joinCRLF (y :: rest)

/-- Python `str.replace(needle, repl)` worker over lists, with the list
length as (exact) recursion bound; `needle` is non-empty at every call
site. -/
def replaceAux (needle repl : List Char) : Nat → List Char → List Char
  | 0, cs => cs
  | _ + 1, [] => []
  | fuel + 1, c :: rest =>
    if needle.isPrefixOf (c :: rest) then
      repl ++ replaceAux needle repl fuel (rest.drop (needle.length - 1))
    else
      c :: replaceAux needle repl fuel rest

/-- Python `s.replace(needle, repl)` (all occurrences, non-empty needle). -/
def strReplace (s needle repl : String) : String :=
  if needle.data = [] then s
  else (replaceAux needle.data repl.data s.data.length s.data).asString

/-- Value of a list of decimal digits. -/
def digitsVal : List Char → Nat → Nat
  | [], acc => acc
  | c :: rest, acc => digitsVal rest (acc * 10 + (c.toNat - '0'.toNat))

/-- Python `int(s)` as used on the captures of the `(\d*)` groups:
succeeds exactly on a non-empty all-digit string, `ValueError`
(modelled as `none`) on the empty capture. -/
def pyIntDigits (s : String) : Option Nat :=
  if s.data ≠ [] && s.data.all Char.isDigit then some (digitsVal s.data 0)
  else none

/-! ## A backtracking matcher for the `re.match` patterns of the source

Each Python pattern is a sequence of tokens: literal text, a greedy
(backtracking) star over a character class — plain or capturing — and
the `$` anchor.  `reRunF` explores the star splits longest-first, which
is exactly Python's greedy backtracking on these patterns (they have no
alternation and no nested groups). -/

inductive RTok where
  | lit (cs : List Char)
  | star (p : Char → Bool)
  | cstar (p : Char → Bool)
  | eos

/-- All ways to split off a prefix of characters satisfying `p`,
longest prefix first (the order a greedy star explores). -/
def starSplits (p : Char → Bool) : List Char → List (List Char × List Char)
  | [] => [([], [])]
  | c :: cs =>
    if p c then
      ((starSplits p cs).map (fun tr => (c :: tr.1, tr.2))) ++ [([], c :: cs)]
    else [([], c :: cs)]

/-- Run a token list against the input, returning the captures.  The
fuel is the token count plus one: every recursive call drops one token.
`eos` is Python's `$`: end of input or a sole trailing newline. -/
def reRunF : Nat → List RTok → List Char → Option (List String)
  | 0, _, _ => none
  | _ + 1, [], _ => some []
  | fuel + 1, .lit l :: ts, cs =>
    if l.isPrefixOf cs then reRunF fuel ts (cs.drop l.length) else none
  | fuel + 1, .eos :: ts, cs =>
    if cs = [] || cs = ['\n'] then reRunF fuel ts cs else none
  | fuel + 1, .star p :: ts, cs =>
    (starSplits p cs).findSome? (fun tr => reRunF fuel ts tr.2)
  | fuel + 1, .cstar p :: ts, cs =>
    (starSplits p cs).findSome?
      (fun tr => (reRunF fuel ts tr.2).map (fun caps => tr.1.asString :: caps))

/-- `re.match(pattern, s)` returning the captures on success. -/
def reMatch (ts : List RTok) (s : String) : Option (List String) :=
  reRunF (ts.length + 1) ts s.data

/-- The first capture of `re.match` (all the source's patterns have one
group). -/
def reMatch1 (ts : List RTok) (s : String) : Option String :=
  match reMatch ts s with
  | some (p :: _) => some p
  | _ => none

/-! ## The source's regex patterns -/

/-- Non-whitespace, the class `\S`. -/
def nonWs (c : Char) : Bool := !isPyWs c

/-- The class `.`: any character but a newline. -/
def anyNoNl (c : Char) : Bool := c ≠ '\n'

/-- `^read_blif [\s]*-a [\s]*(\S*)$` (parsed_exec). -/
def rbPatA : List RTok :=
  [.lit "read_blif ".data, .star isPyWs, .lit "-a ".data, .star isPyWs,
   .cstar nonWs, .eos]

/-- `^read_blif [\s]*(\S*) [\s]*-a$` (parsed_exec). -/
def rbPatB : List RTok :=
  [.lit "read_blif ".data, .star isPyWs, .cstar nonWs, .lit " ".data,
   .star isPyWs, .lit "-a".data, .eos]

/-- `^read_blif [\s]*(\S*)$` (parsed_exec). -/
def rbPat : List RTok :=
  [.lit "read_blif ".data, .star isPyWs, .cstar nonWs, .eos]

/-- `^read_eqn [\s]*-a [\s]*(\S*)$` (parsed_exec). -/
def rePatA : List RTok :=
  [.lit "read_eqn ".data, .star isPyWs, .lit "-a ".data, .star isPyWs,
   .cstar nonWs, .eos]

/-- `^read_eqn [\s]*(\S*) [\s]*-a$` (parsed_exec). -/
def rePatB : List RTok :=
  [.lit "read_eqn ".data, .star isPyWs, .cstar nonWs, .lit " ".data,
   .star isPyWs, .lit "-a".data, .eos]

/-- `^read_eqn [\s]*(\S*)$` (parsed_exec). -/
def rePat : List RTok :=
  [.lit "read_eqn ".data, .star isPyWs, .cstar nonWs, .eos]

/-- `^write_blif [\s]*(\S*)$` (parsed_exec). -/
def wbPat : List RTok :=
  [.lit "write_blif ".data, .star isPyWs, .cstar nonWs, .eos]

/-- `^write_eqn [\s]*(\S*)$` (parsed_exec). -/
def wePat : List RTok :=
  [.lit "write_eqn ".data, .star isPyWs, .cstar nonWs, .eos]

/-- `^simulate [\s]*(.*)$` (parsed_exec). -/
def simulatePat : List RTok :=
  [.lit "simulate ".data, .star isPyWs, .cstar anyNoNl, .eos]

/-- `^sim [\s]*(.*)$` (parsed_exec). -/
def simPat : List RTok :=
  [.lit "sim ".data, .star isPyWs, .cstar anyNoNl, .eos]

/-- `^(\S*)[\s]*pi=[\s]*(\d*)[\s]*po=[\s]*(\d*)[\s]*nodes=[\s]*(\d*)[\s]*latches=[\s]*(\d*)[\s]*$`
(print_stats, first output line). -/
def statsPat : List RTok :=
  [.cstar nonWs, .star isPyWs, .lit "pi=".data, .star isPyWs, .cstar Char.isDigit,
   .star isPyWs, .lit "po=".data, .star isPyWs, .cstar Char.isDigit,
   .star isPyWs, .lit "nodes=".data, .star isPyWs, .cstar Char.isDigit,
   .star isPyWs, .lit "latches=".data, .star isPyWs, .cstar Char.isDigit,
   .star isPyWs, .eos]

/-- `lits\(sop\)=[\s]*(\d*).*` (print_stats, second output line). -/
def litsPat : List RTok :=
  [.lit "lits(sop)=".data, .star isPyWs, .cstar Char.isDigit, .star anyNoNl]

/-- `.*#states\(STG\)=[\s]*(\d*)` (print_stats, second output line). -/
def statesPat : List RTok :=
  [.star anyNoNl, .lit "#states(STG)=".data, .star isPyWs, .cstar Char.isDigit]

/-! ## Result envelopes and session state -/

/-- The `{"success": .., "errors": .., "stdout": ..}` dictionary returned
by start, stop, reset, wait_end_command, exec, write_blif, write_eqn,
script_rugged and stg_to_network. -/
structure OpRes where
  success : Bool
  errors : List String
  stdout : Option String
deriving Repr, DecidableEq

/-- The dictionary returned by read_blif and read_eqn.  `warnings` is
`some` when the initial dictionary carries the `"warnings"` key
(read_blif, line 477) and `none` when it does not (read_eqn, line 534);
appending through the absent key is a `KeyError`. -/
structure ReadRes where
  success : Bool
  errors : List String
  warnings : Option (List String)
  stdout : Option String
deriving Repr, DecidableEq

/-- The typed record parsed by print_stats (`res["output"]`). -/
structure StatsOut where
  name : String
  pi : Nat
  po : Nat
  nodes : Nat
  latches : Nat
  lits : Nat
  states : Nat
deriving Repr, DecidableEq

/-- The dictionary returned by print_stats. -/
structure StatsRes where
  success : Bool
  output : Option StatsOut
  errors : List String
  stdout : Option String
deriving Repr, DecidableEq

/-- The `res["output"]` record of simulate; the STG fields are the keys
only present in the 7-line (network plus STG) shape. -/
structure SimOut where
  outputs : String
  next_state : String
  stg_outputs : Option String
  stg_next_state : Option String
deriving Repr, DecidableEq

/-- The dictionary returned by simulate. -/
structure SimRes where
  success : Bool
  output : Option SimOut
  errors : List String
  stdout : Option String
deriving Repr, DecidableEq

/-- The mutable attributes of a Siswrapper instance that the operations
read and write: `started`, `readsomething` (the spec's `hasInput`) and
`read_path` (the spec's `lastInputPath`). -/
structure SisState where
  started : Bool
  readsomething : Bool
  read_path : Option String
deriving Repr, DecidableEq

/-- A Python exception escaping a method. -/
inductive PyErr where
  | typeError
  | keyError
  | attributeError
deriving Repr, DecidableEq

/-- What the SIS process does while the wrapper waits for it inside
`wait_end_command`: the prompt appears after `pages` paginated chunks
(the `before` text of each `--More--` match) and a final chunk, or the
wait times out, or the stream reaches EOF. -/
inductive WaitOutcome where
  | prompt (pages : List String) (final : String)
  | timeout
  | eof

/-- Python truthiness of an optional string (`if exec_res["stdout"]:`). -/
def strTruthy : Option String → Bool
  | none => false
  | some s => s ≠ ""

/-! ## Session lifecycle and the execution engine -/

/-- What `pexpect.spawn` does inside `start`: fail to launch, or launch
with the subsequent prompt-wait behaving as `w`. -/
inductive StartEnv where
  | spawnFail
  | spawned (w : WaitOutcome)

/-- `Siswrapper.wait_end_command` (lines 234-283): accumulate the text
before each pagination marker and before the prompt; when pagination
occurred and the first physical line is the echoed command, drop it.
Timeout is a failure; EOF is a success with no output. -/
def wait_end_command (t_command : String) : WaitOutcome → OpRes
  | .prompt pages final =>
    let output := String.join pages ++ final
    let output :=
      if pages ≠ [] then
        match splitCRLF output with
        | l0 :: l1 :: rest =>
          if pyStrip l0 = t_command then joinCRLF (l1 :: rest) else output
        | _ => output
      else output
    { success := true, errors := [], stdout := some output }
  | .timeout =>
    { success := false,
      errors := ["[ERROR][WAIT_END_COMMAND] Timeout while waiting the end of command execution"],
      stdout := none }
  | .eof => { success := true, errors := [], stdout := none }

/-- `Siswrapper.exec` (lines 285-325): send the command, wait, strip a
leading copy of the command from the trimmed output, collapse an empty
remainder to `none`; when the wait ended at EOF (stdout `None`) and the
command was `quit`/`exit`, clear `started`. -/
def exec (st : SisState) (t_command : String) (w : WaitOutcome) : OpRes × SisState :=
  if st.started then
    let wr := wait_end_command t_command w
    if wr.success then
      match wr.stdout with
      | some s =>
        let s' := pyStrip (pyRemovePre (pyStrip s) t_command)
        ({ success := true, errors := [],
           stdout := if s' = "" then none else some s' }, st)
      | none =>
        ({ success := true, errors := [], stdout := none },
         if pyStrip t_command = "quit" || pyStrip t_command = "exit" then
           { st with started := false }
         else st)
    else
      ({ success := false,
         errors := wr.errors.map
           (fun e => "[ERROR][EXEC] Error while waiting for the end of the command: " ++ e),
         stdout := none }, st)
  else
    ({ success := false,
       errors := ["[ERROR][EXEC] Can't execute command: SIS's process is not running"],
       stdout := none }, st)

/-- `Siswrapper.start` (lines 139-173). -/
def start (st : SisState) (env : StartEnv) : OpRes × SisState :=
  if !st.started then
    match env with
    | .spawnFail =>
      ({ success := false,
         errors := ["[ERROR][START] Couldn't start SIS: check if SIS is installed and callable from the terminal"],
         stdout := none }, st)
    | .spawned w =>
      let wr := wait_end_command "" w
      if wr.success then
        ({ success := true, errors := [], stdout := wr.stdout },
         { st with started := true })
      else
        ({ success := false,
           errors := wr.errors.map
             (fun e => "[ERROR][START] Error while waiting SIS's startup: " ++ e),
           stdout := none }, st)
  else
    ({ success := false,
       errors := ["[ERROR][START] Couldn't start SIS: SIS's process is already running in this instance"],
       stdout := none }, st)

/-- `Siswrapper.stop` (lines 201-232), with the two liveness checks
(after the graceful `quit`, after the forced close) as oracles. -/
def stop (st : SisState) (aliveAfterQuit aliveAfterClose : Bool) : OpRes × SisState :=
  if st.started then
    if !aliveAfterQuit then
      ({ success := true, errors := [], stdout := none }, { st with started := false })
    else if !aliveAfterClose then
      ({ success := true, errors := [], stdout := none }, { st with started := false })
    else
      ({ success := false, errors := ["[ERROR][STOP] Couldn't stop the process"],
         stdout := none }, st)
  else
    ({ success := false,
       errors := ["[ERROR][STOP] Can't stop SIS: SIS's process is not running"],
       stdout := none }, st)

/-- `Siswrapper.reset` (lines 175-199): stop, then start. -/
def reset (st : SisState) (a1 a2 : Bool) (env : StartEnv) : OpRes × SisState :=
  let sres := stop st a1 a2
  if sres.1.success then
    let bres := start sres.2 env
    if bres.1.success then
      ({ success := true, errors := [], stdout := bres.1.stdout }, bres.2)
    else
      ({ success := false,
         errors := bres.1.errors.map
           (fun e => "[ERROR][RESET] Error while resetting (start step): " ++ e),
         stdout := none }, bres.2)
  else
    ({ success := false,
       errors := sres.1.errors.map
         (fun e => "[ERROR][RESET] Error while resetting (stop step): " ++ e),
       stdout := none }, sres.2)

/-- `Siswrapper.manage_errors` (lines 449-460). -/
def manage_errors (t_output : String) : String :=
  if strContains t_output "must give F or R, but not both" then
    t_output ++ " (use maxterms, zeros, or minterms, ones, to describe the function)"
  else t_output

/-! ## Read and write handlers -/

/-- The line-classification loop shared by `read_blif` (lines 499-506)
and `read_eqn` (lines 556-563): a line whose strip starts with
`"Warning: "` is appended to the `warnings` entry — a `KeyError` when
the result dictionary has no such key — and every other line (empty
ones included) is appended to `errors`, setting the found-errors flag. -/
def processReadMessages : List String → ReadRes → Bool → Except PyErr (ReadRes × Bool)
  | [], res, found => .ok (res, found)
  | m :: ms, res, found =>
    if pyStartsWith (pyStrip m) "Warning: " then
      match res.warnings with
      | none => .error .keyError
      | some ws =>
        processReadMessages ms
          { res with warnings := some (ws ++ [manage_errors (pyStrip m)]) } found
    else
      processReadMessages ms
        { res with errors := res.errors ++ [manage_errors (pyStrip m)] } true

/-- The command line `read_blif` sends (lines 489-491). -/
def readBlifCmdStr (t_append : Bool) (realp : String) : String :=
  if t_append then "read_blif -a \"" ++ realp ++ "\""
  else "read_blif \"" ++ realp ++ "\""

/-- The command line `read_eqn` sends (lines 546-548). -/
def readEqnCmdStr (t_append : Bool) (realp : String) : String :=
  if t_append then "read_eqn -a \"" ++ realp ++ "\""
  else "read_eqn \"" ++ realp ++ "\""

/-- `Siswrapper.read_blif` (lines 468-524).  `realp` is the resolved
absolute path (`os.path.realpath(t_file)`), `isfile` the result of the
existence check, `a1 a2 env` the oracles of the `reset()` performed when
`t_changedir` is true, `w` the process behaviour for the read command. -/
def read_blif (st : SisState) (realp : String) (isfile : Bool)
    (t_changedir t_append : Bool) (a1 a2 : Bool) (env : StartEnv)
    (w : WaitOutcome) : Except PyErr (ReadRes × SisState) :=
  let res0 : ReadRes := { success := false, errors := [], warnings := some [], stdout := none }
  if st.started then
    let st1 := if t_changedir then (reset st a1 a2 env).2 else st
    if isfile then
      let er := exec st1 (readBlifCmdStr t_append realp) w
      if er.1.success then
        match er.1.stdout with
        | some s =>
          if s = "" then
            .ok ({ res0 with stdout := some s, success := true },
                 { er.2 with readsomething := true, read_path := some realp })
          else
            match processReadMessages (splitCRLF s) { res0 with stdout := some s } false with
            | .error e => .error e
            | .ok (res2, found) =>
              if !found then
                .ok ({ res2 with success := true },
                     { er.2 with readsomething := true, read_path := some realp })
              else .ok (res2, er.2)
        | none =>
          .ok ({ res0 with stdout := none, success := true },
               { er.2 with readsomething := true, read_path := some realp })
      else
        .ok ({ res0 with errors := (er.1.errors.map
                 (fun e => "[ERROR][READ_BLIF] Error during execution: " ++ e)) }, er.2)
    else
      .ok ({ res0 with errors :=
               ["[ERROR][READ_BLIF] '" ++ realp ++ "' file doesn't exist"] }, st1)
  else
    .ok ({ res0 with errors :=
             ["[ERROR][READ_BLIF] Can't execute command: SIS's process is not running"] }, st)

/-- `Siswrapper.read_eqn` (lines 526-581).  Identical to `read_blif`
except for the command name and message prefixes — and for its initial
result dictionary (line 534), which carries no `"warnings"` key, so a
warning line makes the loop raise `KeyError`. -/
def read_eqn (st : SisState) (realp : String) (isfile : Bool)
    (t_changedir t_append : Bool) (a1 a2 : Bool) (env : StartEnv)
    (w : WaitOutcome) : Except PyErr (ReadRes × SisState) :=
  let res0 : ReadRes := { success := false, errors := [], warnings := none, stdout := none }
  if st.started then
    let st1 := if t_changedir then (reset st a1 a2 env).2 else st
    if isfile then
      let er := exec st1 (readEqnCmdStr t_append realp) w
      if er.1.success then
        match er.1.stdout with
        | some s =>
          if s = "" then
            .ok ({ res0 with stdout := some s, success := true },
                 { er.2 with readsomething := true, read_path := some realp })
          else
            match processReadMessages (splitCRLF s) { res0 with stdout := some s } false with
            | .error e => .error e
            | .ok (res2, found) =>
              if !found then
                .ok ({ res2 with success := true },
                     { er.2 with readsomething := true, read_path := some realp })
              else .ok (res2, er.2)
        | none =>
          .ok ({ res0 with stdout := none, success := true },
               { er.2 with readsomething := true, read_path := some realp })
      else
        .ok ({ res0 with errors := (er.1.errors.map
                 (fun e => "[ERROR][READ_EQN] Error during execution: " ++ e)) }, er.2)
    else
      .ok ({ res0 with errors :=
               ["[ERROR][READ_EQN] '" ++ realp ++ "' file doesn't exist"] }, st1)
  else
    .ok ({ res0 with errors :=
             ["[ERROR][READ_EQN] Can't execute command: SIS's process is not running"] }, st)

/-- `Siswrapper.write_blif` (lines 589-630). -/
def write_blif (st : SisState) (t_file t_params : String) (w : WaitOutcome) :
    OpRes × SisState :=
  if st.started then
    if st.readsomething then
      let cmd :=
        if t_file = "" && t_params = "" then "write_blif"
        else if t_params = "" && t_file ≠ "" then "write_blif " ++ t_file
        else if t_params ≠ "" && t_file = "" then "write_blif " ++ t_params
        else "write_blif " ++ t_params ++ " " ++ t_file
      let er := exec st cmd w
      if er.1.success then
        if t_file = "" && t_params = "" then
          ({ success := true, errors := [], stdout := er.1.stdout }, er.2)
        else if er.1.stdout.isNone then
          ({ success := true, errors := [], stdout := er.1.stdout }, er.2)
        else
          ({ success := false,
             errors := ["[ERROR][WRITE_BLIF] Something went wrong during write_blif"],
             stdout := er.1.stdout }, er.2)
      else
        ({ success := false,
           errors := er.1.errors.map
             (fun e => "[ERROR][WRITE_BLIF] Error during execution: " ++ e),
           stdout := er.1.stdout }, er.2)
    else
      ({ success := false,
         errors := ["[ERROR][WRITE_BLIF] Nothing to write/show (missing an input, use read_blif or another read command)"],
         stdout := none }, st)
  else
    ({ success := false,
       errors := ["[ERROR][WRITE_BLIF] Can't execute command: SIS's process is not running"],
       stdout := none }, st)

/-- `Siswrapper.write_eqn` (lines 632-673). -/
def write_eqn (st : SisState) (t_file t_params : String) (w : WaitOutcome) :
    OpRes × SisState :=
  if st.started then
    if st.readsomething then
      let cmd :=
        if t_file = "" && t_params = "" then "write_eqn"
        else if t_params = "" && t_file ≠ "" then "write_eqn " ++ t_file
        else if t_params ≠ "" && t_file = "" then "write_eqn " ++ t_params
        else "write_eqn " ++ t_params ++ " " ++ t_file
      let er := exec st cmd w
      if er.1.success then
        if t_file = "" && t_params = "" then
          ({ success := true, errors := [], stdout := er.1.stdout }, er.2)
        else if er.1.stdout.isNone then
          ({ success := true, errors := [], stdout := er.1.stdout }, er.2)
        else
          ({ success := false,
             errors := ["[ERROR][WRITE_EQN] Something went wrong during write_eqn"],
             stdout := er.1.stdout }, er.2)
      else
        ({ success := false,
           errors := er.1.errors.map
             (fun e => "[ERROR][WRITE_EQN] Error during execution: " ++ e),
           stdout := er.1.stdout }, er.2)
    else
      ({ success := false,
         errors := ["[ERROR][WRITE_EQN] Nothing to write/show (missing an input, use read_blif or another read command)"],
         stdout := none }, st)
  else
    ({ success := false,
       errors := ["[ERROR][WRITE_EQN] Can't execute command: SIS's process is not running"],
       stdout := none }, st)

/-! ## Scripts, conversion, statistics -/

/-- `Siswrapper.script_rugged` (lines 681-706): after a successful
engine call the operation succeeds only when the command left no
residual output; no error string is appended in the residual-output
case. -/
def script_rugged (st : SisState) (w : WaitOutcome) : OpRes × SisState :=
  if st.started then
    if st.readsomething then
      let er := exec st "source script.rugged" w
      if er.1.success then
        ({ success := er.1.stdout.isNone, errors := [], stdout := er.1.stdout }, er.2)
      else
        ({ success := false,
           errors := er.1.errors.map
             (fun e => "[ERROR][SCRIPT_RUGGED] Error during execution: " ++ e),
           stdout := none }, er.2)
    else
      ({ success := false,
         errors := ["[ERROR][SCRIPT_RUGGED] Nothing to optimize (missing an input, use read_blif or another read command)"],
         stdout := none }, st)
  else
    ({ success := false,
       errors := ["[ERROR][SCRIPT_RUGGED] Can't execute command: SIS's process is not running"],
       stdout := none }, st)

/-- `Siswrapper.stg_to_network` (lines 1186-1211): same residual-output
success rule as `script_rugged`. -/
def stg_to_network (st : SisState) (w : WaitOutcome) : OpRes × SisState :=
  if st.started then
    if st.readsomething then
      let er := exec st "stg_to_network" w
      if er.1.success then
        ({ success := er.1.stdout.isNone, errors := [], stdout := er.1.stdout }, er.2)
      else
        ({ success := false,
           errors := er.1.errors.map
             (fun e => "[ERROR][STG_TO_NETWORK] Error during execution: " ++ e),
           stdout := none }, er.2)
    else
      ({ success := false,
         errors := ["[ERROR][STG_TO_NETWORK] Nothing to convert into a network (missing an input, use read_blif or another read command)"],
         stdout := none }, st)
  else
    ({ success := false,
       errors := ["[ERROR][STG_TO_NETWORK] Can't execute command: SIS's process is not running"],
       stdout := none }, st)

/-- The parsing part of `Siswrapper.print_stats` (lines 1125-1168),
given the engine's stdout string: the stripped output must split on
`"\r\n"` into exactly two pieces, the first must match `statsPat`, the
second `litsPat`; every numeric capture must be a non-empty digit
string, and a missing `#states(STG)=` field means `states = 0`. -/
def printStatsParse (s : String) : StatsRes :=
  let base : StatsRes := { success := false, output := none, errors := [], stdout := some s }
  match splitCRLF (pyStrip s) with
  | [infos, lits_states] =>
    match reMatch statsPat infos, reMatch1 litsPat lits_states with
    | some [name, spi, spo, snodes, slatches], some slits =>
      let statesOpt :=
        match reMatch1 statesPat lits_states with
        | some sst => pyIntDigits (pyStrip sst)
        | none => some 0
      match pyIntDigits spi, pyIntDigits spo, pyIntDigits snodes,
            pyIntDigits slatches, pyIntDigits (pyStrip slits), statesOpt with
      | some pi', some po', some nodes', some latches', some lits', some states' =>
        { base with success := true,
                    output := some { name := name, pi := pi', po := po',
                                     nodes := nodes', latches := latches',
                                     lits := lits', states := states' } }
      | _, _, _, _, _, _ =>
        { base with errors := ["[ERROR][PRINT_STATS] Command returned something that is not a number"] }
    | _, _ =>
      { base with errors := ["[ERROR][PRINT_STATS] Something went wrong during print_stats' output parsing"] }
  | _ =>
    { base with errors := ["[ERROR][PRINT_STATS] Something went wrong during print_stats execution"] }

/-- `Siswrapper.print_stats` (lines 1112-1178).  A successful engine
call with no output (`stdout` `None`) makes line 1126 call `.strip()`
on `None`: an `AttributeError`. -/
def print_stats (st : SisState) (w : WaitOutcome) : Except PyErr (StatsRes × SisState) :=
  if st.started then
    if st.readsomething then
      let er := exec st "print_stats" w
      if er.1.success then
        match er.1.stdout with
        | none => .error .attributeError
        | some s => .ok (printStatsParse s, er.2)
      else
        .ok ({ success := false, output := none,
               errors := er.1.errors.map
                 (fun e => "[ERROR][PRINT_STATS] Error during command execution: " ++ e),
               stdout := none }, er.2)
    else
      .ok ({ success := false, output := none,
             errors := ["[ERROR][PRINT_STATS] Can't execute command: SIS has not read any files (use a read command first)"],
             stdout := none }, st)
  else
    .ok ({ success := false, output := none,
           errors := ["[ERROR][PRINT_STATS] Can't execute command: SIS's process is not running"],
           stdout := none }, st)

/-! ## Simulation -/

/-- The input validation of `simulate` (lines 1230-1235): every
character must be `0`, `1` or a space. -/
def simChars (inputs : String) : Bool :=
  inputs.data.all (fun c => c = '0' || c = '1' || c = ' ')

/-- The normalization of `simulate` (line 1238):
`"".join([char + " " for char in inputs if char in ["0", "1"]]).strip()`. -/
def simNormalize (inputs : String) : String :=
  pyStrip (((inputs.data.filter (fun c => c = '0' || c = '1')).map
    (fun c => [c, ' '])).flatten.asString)

/-- The shape-mismatch fallback of `simulate` (lines 1260-1266,
1285-1291, 1293-1300): query `print_stats` and check whether the first
output line names a mismatched input width.  `stats["output"]` is
`None` when that query failed, and subscripting `None` raises
`TypeError` — which the `except KeyError` of the third branch does not
catch either. -/
def simulateFallback (v0 : String) (st : SisState) (ws : WaitOutcome) :
    Except PyErr (String × SisState) :=
  match print_stats st ws with
  | .error e => .error e
  | .ok (pr, st2) =>
    match pr.output with
    | none => .error .typeError
    | some o =>
      if strContains v0 ("simulate network: network has " ++ toString o.pi ++ " inputs;") then
        .ok (v0, st2)
      else
        .ok ("[ERROR][SIMULATE] Something went wrong during simulation", st2)

/-- `Siswrapper.simulate` (lines 1219-1314).  Besides the result and
state, the model returns the list of commands actually sent to the SIS
process, in order (the `simulate` line itself and, on a shape mismatch,
the nested `print_stats`); an invalid input pattern sends nothing. -/
def simulate (st : SisState) (inputs : String) (w ws : WaitOutcome) :
    (Except PyErr (SimRes × SisState)) × List String :=
  let base : SimRes := { success := false, output := none, errors := [], stdout := none }
  if st.started then
    if st.readsomething then
      if simChars inputs then
        let norm := simNormalize inputs
        let er := exec st ("simulate " ++ norm) w
        let sent := ["simulate " ++ norm]
        let base1 := { base with stdout := er.1.stdout }
        if er.1.success then
          match er.1.stdout with
          | none => (.error .attributeError, sent)
          | some s =>
            match splitCRLF (pyStrip s) with
            | [v0, v1, v2] =>
              if v0 = "Network simulation:" then
                (.ok ({ base1 with
                          success := true,
                          output := some {
                            outputs := pyStrip (strReplace (strReplace v1 "Outputs:" "") " " ""),
                            next_state := pyStrip (strReplace v2 "Next state:" ""),
                            stg_outputs := none, stg_next_state := none } }, er.2), sent)
              else
                match simulateFallback v0 er.2 ws with
                | .error e => (.error e, sent ++ ["print_stats"])
                | .ok (msg, st3) =>
                  (.ok ({ base1 with errors := [msg] }, st3), sent ++ ["print_stats"])
            | [v0, v1, v2, _, v4, v5, v6] =>
              if v0 = "Network simulation:" && v4 = "STG simulation:" then
                (.ok ({ base1 with
                          success := true,
                          output := some {
                            outputs := pyStrip (strReplace (strReplace v1 "Outputs:" "") " " ""),
                            next_state := pyStrip (strReplace v2 "Next state:" ""),
                            stg_outputs := some (pyStrip (strReplace (strReplace v5 "Outputs:" "") " " "")),
                            stg_next_state := some (pyStrip (strReplace v6 "Next state:" "")) } }, er.2), sent)
              else
                match simulateFallback v0 er.2 ws with
                | .error e => (.error e, sent ++ ["print_stats"])
                | .ok (msg, st3) =>
                  (.ok ({ base1 with errors := [msg] }, st3), sent ++ ["print_stats"])
            | v0 :: _ =>
              match simulateFallback v0 er.2 ws with
              | .error e => (.error e, sent ++ ["print_stats"])
              | .ok (msg, st3) =>
                (.ok ({ base1 with errors := [msg] }, st3), sent ++ ["print_stats"])
            | [] =>
              -- unreachable: `split` always returns at least one piece
              (.ok (base1, er.2), sent)
        else
          (.ok ({ base1 with errors := (er.1.errors.map
                   (fun e => "[ERROR][SIMULATE] Error during command execution: " ++ e)) },
                er.2), sent)
      else
        (.ok ({ base with errors := ["[ERROR][SIMULATE] Invalid inputs (accepted inputs are made of 1s and 0s)"] },
              st), [])
    else
      (.ok ({ base with errors := ["[ERROR][SIMULATE] Can't execute command: SIS has not read any files (use a read command first)"] },
            st), [])
  else
    (.ok ({ base with errors := ["[ERROR][SIMULATE] Can't execute command: SIS's process is not running"] },
          st), [])

/-! ## The command classifier (`parsed_exec`, lines 327-438) -/

/-- The routing decision of `Siswrapper.parsed_exec`: which handler the
raw command is dispatched to.  `bsisError` stands for the literal error
dictionary `{"success": False, "errors": ["[ERROR][BSIS_SCRIPT]
Unexpected bsis_script parameter"], "stdout": None}` returned at lines
426-428 without any engine call; `execRaw c` is the fall-through to
`self.exec(c)`. -/
inductive Dispatch where
  | readBlifCmd (path : String) (append : Bool)
  | readEqnCmd (path : String) (append : Bool)
  | writeBlifCmd (path : String)
  | writeEqnCmd (path : String)
  | scriptRugged
  | printStats
  | simulateCmd (arg : String)
  | bsisFsm (autoencoding opt_area : Bool)
  | bsisLgate (opt_area : Bool) (library : String)
  | bsisFsmd (opt_area : Bool)
  | bsisError
  | stgToNetwork
  | execRaw (cmd : String)
deriving Repr, DecidableEq

/-- The `if`/`elif` chain of `parsed_exec` on the stripped command. -/
def classifyStripped (s : String) : Dispatch :=
  match reMatch1 rbPatA s with
  | some p => .readBlifCmd (pyStripQ p) true
  | none =>
  match reMatch1 rbPatB s with
  | some p => .readBlifCmd (pyStripQ p) true
  | none =>
  match reMatch1 rbPat s with
  | some p => .readBlifCmd (pyStripQ p) false
  | none =>
  match reMatch1 rePatA s with
  | some p => .readEqnCmd (pyStripQ p) true
  | none =>
  match reMatch1 rePatB s with
  | some p => .readEqnCmd (pyStripQ p) true
  | none =>
  match reMatch1 rePat s with
  | some p => .readEqnCmd (pyStripQ p) false
  | none =>
  match reMatch1 wbPat s with
  | some p => .writeBlifCmd (pyStripQ p)
  | none =>
  match reMatch1 wePat s with
  | some p => .writeEqnCmd (pyStripQ p)
  | none =>
  if s = "source script.rugged" then .scriptRugged
  else if s = "print_stats" then .printStats
  else
  match reMatch1 simulatePat s with
  | some p => .simulateCmd p
  | none =>
  match reMatch1 simPat s with
  | some p => .simulateCmd p
  | none =>
  if pyStartsWith s "bsis_script" then
    let param := pyStrip (strReplace s "bsis_script" "")
    if param = "fsm_autoencoding_area" then .bsisFsm true true
    else if param = "fsm_autoencoding_delay" then .bsisFsm true false
    else if param = "fsm_area" then .bsisFsm false true
    else if param = "fsm_delay" then .bsisFsm false false
    else if param = "lgate_area_mcnc" then .bsisLgate true "mcnc"
    else if param = "lgate_delay_mcnc" then .bsisLgate false "mcnc"
    else if param = "lgate_area_synch" then .bsisLgate true "synch"
    else if param = "lgate_delay_synch" then .bsisLgate false "synch"
    else if param = "fsmd_area" then .bsisFsmd true
    else if param = "fsmd_delay" then .bsisFsmd false
    else .bsisError
  else if s = "stg_to_network" then .stgToNetwork
  else .execRaw s

/-- `parsed_exec`'s classification of a raw command string
(`strip_cmd = t_command.strip()`, line 339). -/
def classify (t_command : String) : Dispatch :=
  classifyStripped (pyStrip t_command)

/-! ## Workflow orchestration (`bsisscript_fsm`, `bsisscript_lgate`,
`bsisscript_fsmd`, lines 708-1104) -/

/-- `os.path.dirname` (posixpath): text up to the last slash, trailing
slashes stripped unless the head is all slashes. -/
def pyDirname (p : String) : String :=
  let head := (p.data.reverse.dropWhile (fun c => c ≠ '/')).reverse
  if head ≠ [] && !head.all (fun c => c = '/') then
    ((head.reverse.dropWhile (fun c => c = '/')).reverse).asString
  else head.asString

/-- `os.path.basename` (posixpath): text after the last slash. -/
def pyBasename (p : String) : String :=
  ((p.data.reverse.takeWhile (fun c => c ≠ '/')).reverse).asString

/-- `os.path.join` (posixpath) for two components. -/
def pyJoin (a b : String) : String :=
  if pyStartsWith b "/" then b
  else if a = "" || a.data.getLast? = some '/' then a ++ b
  else a ++ "/" ++ b

/-- The intermediate-file path a workflow writes, tagged with a stage
name: lines 725-731 build `join(dirname(read_path),
removesuffix(basename(read_path), ".blif") + ".\x7b\x7d.blif")` and
`.format(tag)` fills the placeholder (exact whenever the read path
itself contains no brace character). -/
def newfileTagged (rp tag : String) : String :=
  pyJoin (pyDirname rp)
    (pyRemoveSuf (pyBasename rp) ".blif" ++ "." ++ tag ++ ".blif")

/-- The result dictionary of one workflow step as the workflow reads it
(`success`, `errors`, `stdout` and — for `print_stats` steps — `output`). -/
structure CmdRes where
  success : Bool
  errors : List String
  stdout : Option String
  output : Option StatsOut
deriving Repr, DecidableEq

/-- The aggregated workflow result dictionary (line 723/934):
`output` is the dict of tagged statistics snapshots, `stdout` the
transcript string. -/
structure WfRes where
  success : Bool
  output : List (String × StatsOut)
  errors : List String
  stdout : String
deriving Repr, DecidableEq

/-- One step of a workflow's fixed command sequence:
`run cmd key` is a `self.print_stats()` (when `key` is `some`, the tag
under which its `output` is stored) or `self.parsed_exec cmd` call;
`wr path` is a `self.write_blif(path)` call whose result the source
discards (lines 798, 860, 908, 1022, 1079); `fixed cmd r` is the
unknown-library branch of lines 1031-1035, whose result dictionary is
built locally without talking to the process (its missing `"output"`
key is never read, so `output := none` is observationally equal). -/
inductive WStep where
  | run (cmd : String) (statsKey : Option String)
  | wr (path : String)
  | fixed (cmd : String) (r : CmdRes)

/-- The aggregation block repeated after every workflow step (e.g.
lines 740-750): append the step's errors, store its `output` under the
step's tag when truthy, append its non-empty stdout to the transcript,
and clear the overall `success` flag when the step failed. -/
def applyStep (acc : WfRes) (r : CmdRes) (key : Option String) : WfRes :=
  let acc1 := { acc with errors := acc.errors ++ r.errors }
  let acc2 :=
    match key, r.output with
    | some k, some out => { acc1 with output := acc1.output ++ [(k, out)] }
    | _, _ => acc1
  let acc3 :=
    match r.stdout with
    | some s => if s = "" then acc2 else { acc2 with stdout := acc2.stdout ++ "\n" ++ s ++ "\n" }
    | none => acc2
  if r.success then acc3 else { acc3 with success := false }

/-- Run a workflow's step list.  `o i` is the result dictionary the
`i`-th process-level sub-call returns (a `wr` step consumes a slot but
its result is discarded; a `fixed` step consumes none).  Returns the
aggregate, the next oracle index, and the trace of commands sent to the
process. -/
def runWSteps (o : Nat → CmdRes) : List WStep → Nat → WfRes → WfRes × Nat × List String
  | [], i, acc => (acc, i, [])
  | .run cmd key :: rest, i, acc =>
    let r := o i
    let acc1 := { acc with stdout := acc.stdout ++ "sis> " ++ cmd ++ "\n" }
    let out := runWSteps o rest (i + 1) (applyStep acc1 r key)
    (out.1, out.2.1, cmd :: out.2.2)
  | .wr path :: rest, i, acc =>
    let out := runWSteps o rest (i + 1) acc
    (out.1, out.2.1, ("write_blif " ++ path) :: out.2.2)
  | .fixed cmd r :: rest, i, acc =>
    let acc1 := { acc with stdout := acc.stdout ++ "sis> " ++ cmd ++ "\n" }
    runWSteps o rest i (applyStep acc1 r none)

/-- The fixed command sequence of `bsisscript_fsm` (lines 736-908). -/
def fsmSteps (autoencoding opt_area : Bool) (rp : String) : List WStep :=
  [.run "print_stats" (some "1_initial_stats"),
   .run "state_minimize stamina" none,
   .run (if autoencoding then "state_assign jedi" else "stg_to_network") none,
   .run "print_stats" (some "2_optimized_states"),
   .wr (newfileTagged rp "state_min_encoding")] ++
  (if opt_area then []
   else [.run "reduce_depth" none, .run "print_stats" (some "3_reduce_depth_stats")]) ++
  [.run "source script.rugged" none,
   .run "print_stats" (some "4_rugged_stats"),
   .wr (newfileTagged rp "optimized"),
   .run "read_library synch.genlib" none,
   .run (if opt_area then "map -m 0 -W -s" else "map -n 1 -W -s") none,
   .run "print_stats" (some "5_map_stats"),
   .wr (newfileTagged rp "mapped")]

/-- The fixed command sequence of `bsisscript_lgate` (lines 946-1079). -/
def lgateSteps (opt_area : Bool) (library : String) (rp : String) : List WStep :=
  [.run "print_stats" (some "1_initial_stats")] ++
  (if opt_area then []
   else [.run "reduce_depth" none, .run "print_stats" (some "2_reduce_depth_stats")]) ++
  [.run "source script.rugged" none,
   .run "print_stats" (some "3_rugged_stats"),
   .wr (newfileTagged rp "optimized")] ++
  (if library = "synch" then [.run "read_library synch.genlib" none]
   else if library = "mcnc" then [.run "read_library mcnc.genlib" none]
   else [.fixed ("read_library " ++ library)
           { success := false,
             errors := ["[ERROR][BSISSCRIPT_LGATE] library '" ++ library ++ "' doesn't exist"],
             stdout := none, output := none }]) ++
  [.run (if opt_area then "map -m 0 -W -s" else "map -n 1 -W -s") none,
   .run "print_stats" (some "4_map_stats"),
   .wr (newfileTagged rp "mapped")]

/-- `Siswrapper.bsisscript_fsm` (lines 708-919).  Line 725 calls
`os.path.dirname(self.read_path)` before any guard: with no prior
successful read, `read_path` is `None` and this raises `TypeError`.
Returns the aggregate and the trace of commands sent. -/
def bsisscript_fsm (st : SisState) (autoencoding opt_area : Bool)
    (o : Nat → CmdRes) : Except PyErr (WfRes × List String) :=
  match st.read_path with
  | none => .error .typeError
  | some rp =>
    if st.started then
      if st.readsomething then
        let out := runWSteps o (fsmSteps autoencoding opt_area rp) 0
          { success := true, output := [], errors := [], stdout := "" }
        .ok (out.1, out.2.2)
      else
        .ok ({ success := false, output := [],
               errors := ["[ERROR][BSISSCRIPT_FSM] Nothing to optimize and map (missing an input, use read_blif or another read command)"],
               stdout := "" }, [])
    else
      .ok ({ success := false, output := [],
             errors := ["[ERROR][BSISSCRIPT_FSM] Can't execute command: SIS's process is not running"],
             stdout := "" }, [])

/-- `Siswrapper.bsisscript_lgate` (lines 921-1089), with the same
unguarded `os.path.dirname(self.read_path)` at line 936. -/
def bsisscript_lgate (st : SisState) (opt_area : Bool) (library : String)
    (o : Nat → CmdRes) : Except PyErr (WfRes × List String) :=
  match st.read_path with
  | none => .error .typeError
  | some rp =>
    if st.started then
      if st.readsomething then
        let out := runWSteps o (lgateSteps opt_area library rp) 0
          { success := true, output := [], errors := [], stdout := "" }
        .ok (out.1, out.2.2)
      else
        .ok ({ success := false, output := [],
               errors := ["[ERROR][BSISSCRIPT_LGATE] Nothing to optimize and map (missing an input, use read_blif or another read command)"],
               stdout := "" }, [])
    else
      .ok ({ success := false, output := [],
             errors := ["[ERROR][BSISSCRIPT_LGATE] Can't execute command: SIS's process is not running"],
             stdout := "" }, [])

/-- `Siswrapper.bsisscript_fsmd` (lines 1091-1104): delegates to
`bsisscript_lgate` with the `synch` library. -/
def bsisscript_fsmd (st : SisState) (opt_area : Bool) (o : Nat → CmdRes) :
    Except PyErr (WfRes × List String) :=
  bsisscript_lgate st opt_area "synch" o

/-! ## Specification-side definitions

Functions below restate parts of the spec's wording so that theorems can
compare the code's behaviour with it; they are not translations of the
source. -/

/-- The warning lines of a read command's output, the spec's terms:
lines (after stripping) beginning with `"Warning: "`, each passed
through the diagnostic augmentation. -/
def warnOf (msgs : List String) : List String :=
  (msgs.filter (fun m => pyStartsWith (pyStrip m) "Warning: ")).map
    (fun m => manage_errors (pyStrip m))

/-- The non-warning lines of a read command's output (what the code
turns into blocking errors), augmented. -/
def errOf (msgs : List String) : List String :=
  (msgs.filter (fun m => !pyStartsWith (pyStrip m) "Warning: ")).map
    (fun m => manage_errors (pyStrip m))

/-- The logical AND of the results of the steps whose outcome the
workflow aggregation inspects: every `run` and `fixed` step, but not
the `wr` (intermediate `write_blif` export) steps, whose results the
source discards. -/
def stepResultsAnd (o : Nat → CmdRes) : List WStep → Nat → Bool
  | [], _ => true
  | .run _ _ :: rest, i => (o i).success && stepResultsAnd o rest (i + 1)
  | .wr _ :: rest, i => stepResultsAnd o rest (i + 1)
  | .fixed _ r :: rest, i => r.success && stepResultsAnd o rest i

/-- The concatenation of the errors of the aggregated (non-`wr`)
workflow steps, in order. -/
def stepErrors (o : Nat → CmdRes) : List WStep → Nat → List String
  | [], _ => []
  | .run _ _ :: rest, i => (o i).errors ++ stepErrors o rest (i + 1)
  | .wr _ :: rest, i => stepErrors o rest (i + 1)
  | .fixed _ r :: rest, i => r.errors ++ stepErrors o rest i

/-- The commands a workflow sends to the process, in order, independent
of any step's outcome. -/
def plannedCmds : List WStep → List String
  | [] => []
  | .run cmd _ :: rest => cmd :: plannedCmds rest
  | .wr path :: rest => ("write_blif " ++ path) :: plannedCmds rest
  | .fixed _ _ :: rest => plannedCmds rest

/-- A step cannot report success together with errors (true of every
result the process-level operations produce; the one locally built
`fixed` step result has `success = false`). -/
def stepOkInv : WStep → Prop
  | .fixed _ r => r.success = true → r.errors = []
  | _ => True

/-- The spec's "digits re-joined with single spaces": one space between
consecutive kept characters, none at the ends. -/
def specRejoin : List Char → List Char
  | [] => []
  | [c] => [c]
  | c :: d :: rest => c :: ' ' :: specRejoin (d :: rest)

/-- A successful step result for workflow oracles in concrete
instantiations. -/
def okStep : CmdRes :=
  { success := true, errors := [], stdout := none, output := none }

/-- A failing `write_blif` result for workflow oracles in concrete
instantiations. -/
def failWrite : CmdRes :=
  { success := false,
    errors := ["[ERROR][WRITE_BLIF] Something went wrong during write_blif"],
    stdout := none, output := none }

/-- Oracle for the C6 counterexample: both intermediate `write_blif`
exports (oracle slots 3 and 7 of `bsisscript_lgate` with
`opt_area = true`, `library = "mcnc"`) fail, every other step
succeeds. -/
def c6Oracle : Nat → CmdRes :=
  fun i => if i = 3 || i = 7 then failWrite else okStep

/-! ## Helper lemmas -/

theorem applyStep_success (acc : WfRes) (r : CmdRes) (key : Option String) :
    (applyStep acc r key).success = (acc.success && r.success) := by
  unfold applyStep
  cases hr : r.success <;> (simp [hr]; all_goals ((repeat' split) <;> simp_all))

theorem applyStep_errors (acc : WfRes) (r : CmdRes) (key : Option String) :
    (applyStep acc r key).errors = acc.errors ++ r.errors := by
  unfold applyStep
  cases hr : r.success <;> (simp [hr]; all_goals ((repeat' split) <;> simp_all))

theorem runWSteps_success (o : Nat → CmdRes) (steps : List WStep) :
    ∀ i acc, ((runWSteps o steps i acc).1).success = (acc.success && stepResultsAnd o steps i) := by
  induction steps with
  | nil => intro i acc; simp [runWSteps, stepResultsAnd]
  | cons s rest ih =>
    intro i acc
    cases s with
    | run cmd key =>
      simp [runWSteps, stepResultsAnd, ih, applyStep_success, Bool.and_assoc]
    | wr path => simp [runWSteps, stepResultsAnd, ih]
    | fixed cmd r =>
      simp [runWSteps, stepResultsAnd, ih, applyStep_success, Bool.and_assoc]

theorem runWSteps_errors (o : Nat → CmdRes) (steps : List WStep) :
    ∀ i acc, ((runWSteps o steps i acc).1).errors = acc.errors ++ stepErrors o steps i := by
  induction steps with
  | nil => intro i acc; simp [runWSteps, stepErrors]
  | cons s rest ih =>
    intro i acc
    cases s with
    | run cmd key =>
      simp [runWSteps, stepErrors, ih, applyStep_errors, List.append_assoc]
    | wr path => simp [runWSteps, stepErrors, ih]
    | fixed cmd r =>
      simp [runWSteps, stepErrors, ih, applyStep_errors, List.append_assoc]

theorem runWSteps_trace (o : Nat → CmdRes) (steps : List WStep) :
    ∀ i acc, (runWSteps o steps i acc).2.2 = plannedCmds steps := by
  induction steps with
  | nil => intro i acc; simp [runWSteps, plannedCmds]
  | cons s rest ih =>
    intro i acc
    cases s with
    | run cmd key => simp [runWSteps, plannedCmds, ih]
    | wr path => simp [runWSteps, plannedCmds, ih]
    | fixed cmd r => simp [runWSteps, plannedCmds, ih]

theorem stepErrors_nil_of_and (o : Nat → CmdRes) (steps : List WStep)
    (hinv : ∀ j, (o j).success = true → (o j).errors = [])
    (hfix : ∀ s ∈ steps, stepOkInv s) :
    ∀ i, stepResultsAnd o steps i = true → stepErrors o steps i = [] := by
  induction steps with
  | nil => intro i _; rfl
  | cons s rest ih =>
    intro i h
    cases s with
    | run cmd key =>
      simp only [stepResultsAnd, Bool.and_eq_true] at h
      have hrest := ih (fun x hx => hfix x (by simp [hx])) (i + 1) h.2
      simp [stepErrors, hinv i h.1, hrest]
    | wr path =>
      simp only [stepResultsAnd] at h
      have hrest := ih (fun x hx => hfix x (by simp [hx])) (i + 1) h
      simp [stepErrors, hrest]
    | fixed cmd r =>
      simp only [stepResultsAnd, Bool.and_eq_true] at h
      have hr := hfix (.fixed cmd r) (by simp)
      simp only [stepOkInv] at hr
      have hrest := ih (fun x hx => hfix x (by simp [hx])) i h.2
      simp [stepErrors, hr h.1, hrest]

theorem processReadMessages_ok_false (msgs : List String) :
    ∀ res found res2, processReadMessages msgs res found = .ok (res2, false) →
      found = false ∧ res2.errors = res.errors := by
  induction msgs with
  | nil =>
    intro res found res2 h
    simp only [processReadMessages, Except.ok.injEq, Prod.mk.injEq] at h
    exact ⟨h.2, by rw [← h.1]⟩
  | cons m rest ih =>
    intro res found res2 h
    simp only [processReadMessages] at h
    split at h
    · cases hw : res.warnings with
      | none => rw [hw] at h; exact absurd h (by simp)
      | some ws =>
        rw [hw] at h
        have := ih _ _ _ h
        exact ⟨this.1, by simpa using this.2⟩
    · have := ih _ _ _ h
      exact absurd this.1 (by simp)

theorem processReadMessages_some_warnings (msgs : List String) :
    ∀ (rsu : Bool) (rer : List String) (ws : List String) (rso : Option String) (found : Bool),
      processReadMessages msgs ⟨rsu, rer, some ws, rso⟩ found =
        .ok (⟨rsu, rer ++ errOf msgs, some (ws ++ warnOf msgs), rso⟩,
             found || msgs.any (fun m => !pyStartsWith (pyStrip m) "Warning: ")) := by
  induction msgs with
  | nil => intro rsu rer ws rso found; simp [processReadMessages, warnOf, errOf]
  | cons m rest ih =>
    intro rsu rer ws rso found
    simp only [processReadMessages]
    by_cases hm : pyStartsWith (pyStrip m) "Warning: " = true
    · rw [if_pos hm, ih]
      simp [warnOf, errOf, hm, List.filter_cons, List.append_assoc]
    · rw [if_neg hm, ih]
      simp only [Bool.not_eq_true] at hm
      simp [warnOf, errOf, hm, List.filter_cons, List.append_assoc]

theorem processReadMessages_none_warning_err (msgs : List String) :
    ∀ res found, res.warnings = none →
      msgs.any (fun m => pyStartsWith (pyStrip m) "Warning: ") = true →
      processReadMessages msgs res found = .error .keyError := by
  induction msgs with
  | nil => intro res found _ hany; simp at hany
  | cons m rest ih =>
    intro res found h hany
    simp only [processReadMessages]
    by_cases hm : pyStartsWith (pyStrip m) "Warning: " = true
    · rw [if_pos hm, h]
    · rw [if_neg hm]
      simp only [List.any_cons, Bool.or_eq_true] at hany
      rcases hany with hany | hany
      · exact absurd hany hm
      · exact ih _ _ (by simpa using h) hany

theorem processReadMessages_none_preserved (msgs : List String) :
    ∀ res found res2 f2, res.warnings = none →
      processReadMessages msgs res found = .ok (res2, f2) → res2.warnings = none := by
  induction msgs with
  | nil =>
    intro res found res2 f2 h hok
    simp only [processReadMessages, Except.ok.injEq, Prod.mk.injEq] at hok
    rw [← hok.1]; exact h
  | cons m rest ih =>
    intro res found res2 f2 h hok
    simp only [processReadMessages] at hok
    split at hok
    · rw [h] at hok; exact absurd hok (by simp)
    · exact ih _ _ _ _ (by simpa using h) hok

theorem exec_state_or (st : SisState) (cmd : String) (w : WaitOutcome) :
    (exec st cmd w).2 = st ∨ ((exec st cmd w).1).stdout = none := by
  unfold exec
  by_cases hs : st.started = true
  · simp only [hs, if_true]
    by_cases hw : (wait_end_command cmd w).success = true
    · simp only [hw, if_true]
      cases ho : (wait_end_command cmd w).stdout with
      | some s => simp
      | none => simp
    · simp [hw]
  · simp [hs]

theorem processReadMessages_ok_success (msgs : List String) :
    ∀ res found res2 f2, processReadMessages msgs res found = .ok (res2, f2) →
      res2.success = res.success := by
  induction msgs with
  | nil =>
    intro res found res2 f2 h
    simp only [processReadMessages, Except.ok.injEq, Prod.mk.injEq] at h
    rw [← h.1]
  | cons m rest ih =>
    intro res found res2 f2 h
    simp only [processReadMessages] at h
    split at h
    · cases hw : res.warnings with
      | none => rw [hw] at h; exact absurd h (by simp)
      | some ws => rw [hw] at h; simpa using ih _ _ _ _ h
    · simpa using ih _ _ _ _ h

theorem ok_wait (cmd : String) (w : WaitOutcome) :
    (wait_end_command cmd w).success = true → (wait_end_command cmd w).errors = [] := by
  cases w <;> simp [wait_end_command]

theorem ok_exec (st : SisState) (cmd : String) (w : WaitOutcome) :
    ((exec st cmd w).1).success = true → ((exec st cmd w).1).errors = [] := by
  unfold exec
  by_cases hs : st.started = true
  · simp only [hs, if_true]
    by_cases hw : (wait_end_command cmd w).success = true
    · simp only [hw, if_true]
      cases (wait_end_command cmd w).stdout <;> simp
    · simp [hw]
  · simp [hs]

theorem ok_start (st : SisState) (env : StartEnv) :
    ((start st env).1).success = true → ((start st env).1).errors = [] := by
  unfold start
  cases hs : st.started with
  | true => simp
  | false =>
    cases env with
    | spawnFail => simp
    | spawned w =>
      by_cases hw : (wait_end_command "" w).success = true <;> simp [hw]

theorem ok_stop (st : SisState) (a1 a2 : Bool) :
    ((stop st a1 a2).1).success = true → ((stop st a1 a2).1).errors = [] := by
  cases hs : st.started <;> cases a1 <;> cases a2 <;> simp [stop, hs]

theorem ok_reset (st : SisState) (a1 a2 : Bool) (env : StartEnv) :
    ((reset st a1 a2 env).1).success = true → ((reset st a1 a2 env).1).errors = [] := by
  unfold reset
  by_cases h1 : ((stop st a1 a2).1).success = true
  · simp only [h1, if_true]
    by_cases h2 : ((start (stop st a1 a2).2 env).1).success = true <;> simp [h2]
  · simp [h1]

theorem ok_script_rugged (st : SisState) (w : WaitOutcome) :
    ((script_rugged st w).1).success = true → ((script_rugged st w).1).errors = [] := by
  unfold script_rugged
  by_cases hs : st.started = true
  · simp only [hs, if_true]
    by_cases hr : st.readsomething = true
    · simp only [hr, if_true]
      by_cases he : ((exec st "source script.rugged" w).1).success = true <;> simp [he]
    · simp [hr]
  · simp [hs]

theorem ok_stg_to_network (st : SisState) (w : WaitOutcome) :
    ((stg_to_network st w).1).success = true → ((stg_to_network st w).1).errors = [] := by
  unfold stg_to_network
  by_cases hs : st.started = true
  · simp only [hs, if_true]
    by_cases hr : st.readsomething = true
    · simp only [hr, if_true]
      by_cases he : ((exec st "stg_to_network" w).1).success = true <;> simp [he]
    · simp [hr]
  · simp [hs]

theorem ok_write_blif (st : SisState) (t_file t_params : String) (w : WaitOutcome) :
    ((write_blif st t_file t_params w).1).success = true →
    ((write_blif st t_file t_params w).1).errors = [] := by
  unfold write_blif
  by_cases hs : st.started = true
  · simp only [hs, if_true]
    by_cases hr : st.readsomething = true
    · simp only [hr, if_true]
      (repeat' split) <;> simp
    · simp [hr]
  · simp [hs]

theorem ok_write_eqn (st : SisState) (t_file t_params : String) (w : WaitOutcome) :
    ((write_eqn st t_file t_params w).1).success = true →
    ((write_eqn st t_file t_params w).1).errors = [] := by
  unfold write_eqn
  by_cases hs : st.started = true
  · simp only [hs, if_true]
    by_cases hr : st.readsomething = true
    · simp only [hr, if_true]
      (repeat' split) <;> simp
    · simp [hr]
  · simp [hs]

theorem ok_printStatsParse (s : String) :
    (printStatsParse s).success = true → (printStatsParse s).errors = [] := by
  unfold printStatsParse
  (repeat' split) <;> (try simp) <;> (repeat' split) <;> simp

theorem ok_print_stats (st : SisState) (w : WaitOutcome) (r : StatsRes) (st' : SisState)
    (h : print_stats st w = .ok (r, st')) :
    r.success = true → r.errors = [] := by
  unfold print_stats at h
  by_cases hs : st.started = true
  · simp only [hs, if_true] at h
    by_cases hr : st.readsomething = true
    · simp only [hr, if_true] at h
      by_cases he : ((exec st "print_stats" w).1).success = true
      · simp only [he, if_true] at h
        cases ho : ((exec st "print_stats" w).1).stdout with
        | none => rw [ho] at h; exact absurd h (by simp)
        | some s =>
          rw [ho] at h
          simp only [Except.ok.injEq, Prod.mk.injEq] at h
          rw [← h.1]
          exact ok_printStatsParse s
      · rw [if_neg he] at h
        simp only [Except.ok.injEq, Prod.mk.injEq] at h
        rw [← h.1]
        intro hfalse
        simp at hfalse
    · rw [if_neg hr] at h
      simp only [Except.ok.injEq, Prod.mk.injEq] at h
      rw [← h.1]
      intro hfalse
      simp at hfalse
  · rw [if_neg hs] at h
    simp only [Except.ok.injEq, Prod.mk.injEq] at h
    rw [← h.1]
    intro hfalse
    simp at hfalse

theorem ok_read_blif (st : SisState) (realp : String) (isfile t_changedir t_append a1 a2 : Bool)
    (env : StartEnv) (w : WaitOutcome) (r : ReadRes) (st' : SisState)
    (h : read_blif st realp isfile t_changedir t_append a1 a2 env w = .ok (r, st')) :
    r.success = true → r.errors = [] := by
  unfold read_blif at h
  by_cases hs : st.started = true
  case neg =>
    rw [if_neg hs] at h
    simp only [Except.ok.injEq, Prod.mk.injEq] at h
    rw [← h.1]; intro hx; simp at hx
  case pos =>
    rw [if_pos hs] at h
    by_cases hf : isfile = true
    case neg =>
      rw [if_neg hf] at h
      simp only [Except.ok.injEq, Prod.mk.injEq] at h
      rw [← h.1]; intro hx; simp at hx
    case pos =>
      rw [if_pos hf] at h
      simp only [] at h
      by_cases he : ((exec (if t_changedir then (reset st a1 a2 env).2 else st)
          (readBlifCmdStr t_append realp) w).1).success = true
      case neg =>
        rw [if_neg he] at h
        simp only [Except.ok.injEq, Prod.mk.injEq] at h
        rw [← h.1]; intro hx; simp at hx
      case pos =>
        rw [if_pos he] at h
        cases ho : ((exec (if t_changedir then (reset st a1 a2 env).2 else st)
            (readBlifCmdStr t_append realp) w).1).stdout with
        | none =>
          rw [ho] at h
          simp only [Except.ok.injEq, Prod.mk.injEq] at h
          rw [← h.1]; intro _; rfl
        | some s =>
          rw [ho] at h
          dsimp only [] at h
          by_cases hempty : s = ""
          case pos =>
            rw [if_pos hempty] at h
            simp only [Except.ok.injEq, Prod.mk.injEq] at h
            rw [← h.1]; intro _; rfl
          case neg =>
            rw [if_neg hempty] at h
            cases hp : processReadMessages (splitCRLF s)
                { success := false, errors := [], warnings := some [], stdout := some s } false with
            | error e => rw [hp] at h; exact absurd h (by simp)
            | ok p =>
              rw [hp] at h
              rcases p with ⟨res2, found⟩
              cases found with
              | false =>
                simp only [Bool.not_false, if_true] at h
                simp only [Except.ok.injEq, Prod.mk.injEq] at h
                rw [← h.1]; intro _
                have := processReadMessages_ok_false (splitCRLF s) _ _ _ hp
                simpa using this.2
              | true =>
                simp only [Bool.not_true, Bool.false_eq_true, if_false] at h
                simp only [Except.ok.injEq, Prod.mk.injEq] at h
                rw [← h.1]; intro hx
                have := processReadMessages_ok_success (splitCRLF s) _ _ _ _ hp
                rw [this] at hx
                simp at hx

theorem ok_read_eqn (st : SisState) (realp : String) (isfile t_changedir t_append a1 a2 : Bool)
    (env : StartEnv) (w : WaitOutcome) (r : ReadRes) (st' : SisState)
    (h : read_eqn st realp isfile t_changedir t_append a1 a2 env w = .ok (r, st')) :
    r.success = true → r.errors = [] := by
  unfold read_eqn at h
  by_cases hs : st.started = true
  case neg =>
    rw [if_neg hs] at h
    simp only [Except.ok.injEq, Prod.mk.injEq] at h
    rw [← h.1]; intro hx; simp at hx
  case pos =>
    rw [if_pos hs] at h
    by_cases hf : isfile = true
    case neg =>
      rw [if_neg hf] at h
      simp only [Except.ok.injEq, Prod.mk.injEq] at h
      rw [← h.1]; intro hx; simp at hx
    case pos =>
      rw [if_pos hf] at h
      simp only [] at h
      by_cases he : ((exec (if t_changedir then (reset st a1 a2 env).2 else st)
          (readEqnCmdStr t_append realp) w).1).success = true
      case neg =>
        rw [if_neg he] at h
        simp only [Except.ok.injEq, Prod.mk.injEq] at h
        rw [← h.1]; intro hx; simp at hx
      case pos =>
        rw [if_pos he] at h
        cases ho : ((exec (if t_changedir then (reset st a1 a2 env).2 else st)
            (readEqnCmdStr t_append realp) w).1).stdout with
        | none =>
          rw [ho] at h
          simp only [Except.ok.injEq, Prod.mk.injEq] at h
          rw [← h.1]; intro _; rfl
        | some s =>
          rw [ho] at h
          dsimp only [] at h
          by_cases hempty : s = ""
          case pos =>
            rw [if_pos hempty] at h
            simp only [Except.ok.injEq, Prod.mk.injEq] at h
            rw [← h.1]; intro _; rfl
          case neg =>
            rw [if_neg hempty] at h
            cases hp : processReadMessages (splitCRLF s)
                { success := false, errors := [], warnings := none, stdout := some s } false with
            | error e => rw [hp] at h; exact absurd h (by simp)
            | ok p =>
              rw [hp] at h
              rcases p with ⟨res2, found⟩
              cases found with
              | false =>
                simp only [Bool.not_false, if_true] at h
                simp only [Except.ok.injEq, Prod.mk.injEq] at h
                rw [← h.1]; intro _
                have := processReadMessages_ok_false (splitCRLF s) _ _ _ hp
                simpa using this.2
              | true =>
                simp only [Bool.not_true, Bool.false_eq_true, if_false] at h
                simp only [Except.ok.injEq, Prod.mk.injEq] at h
                rw [← h.1]; intro hx
                have := processReadMessages_ok_success (splitCRLF s) _ _ _ _ hp
                rw [this] at hx
                simp at hx

theorem ok_simulate (st : SisState) (inputs : String) (w ws : WaitOutcome)
    (r : SimRes) (st2 : SisState) (tr : List String)
    (h : simulate st inputs w ws = (.ok (r, st2), tr)) :
    r.success = true → r.errors = [] := by
  unfold simulate at h
  by_cases hs : st.started = true
  case neg =>
    rw [if_neg hs] at h
    simp only [Prod.mk.injEq, Except.ok.injEq] at h
    rw [← h.1.1]; intro hx; simp at hx
  case pos =>
    rw [if_pos hs] at h
    by_cases hr : st.readsomething = true
    case neg =>
      rw [if_neg hr] at h
      simp only [Prod.mk.injEq, Except.ok.injEq] at h
      rw [← h.1.1]; intro hx; simp at hx
    case pos =>
      rw [if_pos hr] at h
      by_cases hv : simChars inputs = true
      case neg =>
        rw [if_neg hv] at h
        simp only [Prod.mk.injEq, Except.ok.injEq] at h
        rw [← h.1.1]; intro hx; simp at hx
      case pos =>
        rw [if_pos hv] at h
        by_cases he : ((exec st ("simulate " ++ simNormalize inputs) w).1).success = true
        case neg =>
          simp only [he, if_false, Bool.false_eq_true] at h
          simp only [Prod.mk.injEq, Except.ok.injEq] at h
          rw [← h.1.1]; intro hx; simp at hx
        case pos =>
          simp only [he, if_true] at h
          cases ho : ((exec st ("simulate " ++ simNormalize inputs) w).1).stdout with
          | none =>
            simp only [ho, Prod.mk.injEq] at h
            exact absurd h.1 (by simp)
          | some s =>
            simp only [ho] at h
            (repeat' split at h) <;>
              first
                | (simp only [Prod.mk.injEq] at h
                   exact Except.noConfusion h.1)
                | (simp only [Prod.mk.injEq, Except.ok.injEq] at h
                   rw [← h.1.1]
                   intro hx
                   first | rfl | simp at hx)

theorem fsmSteps_okInv (a b : Bool) (rp : String) :
    ∀ x ∈ fsmSteps a b rp, stepOkInv x := by
  intro x hx
  cases x with
  | run cmd key => trivial
  | wr path => trivial
  | fixed cmd rr =>
    exfalso
    cases a <;> cases b <;> simp [fsmSteps] at hx

theorem lgateSteps_okInv (a : Bool) (lib : String) (rp : String) :
    ∀ x ∈ lgateSteps a lib rp, stepOkInv x := by
  intro x hx
  cases x with
  | run cmd key => trivial
  | wr path => trivial
  | fixed cmd rr =>
    by_cases h1 : lib = "synch"
    · exfalso; cases a <;> simp [lgateSteps, h1] at hx
    · by_cases h2 : lib = "mcnc"
      · exfalso; cases a <;> simp [lgateSteps, h1, h2] at hx
      · cases a <;> simp [lgateSteps, h1, h2] at hx <;>
          (rw [hx.2]; intro hfalse; simp at hfalse)

theorem ok_bsisscript_fsm (st : SisState) (a b : Bool) (o : Nat → CmdRes)
    (hinv : ∀ j, (o j).success = true → (o j).errors = [])
    (r : WfRes) (tr : List String)
    (h : bsisscript_fsm st a b o = .ok (r, tr)) :
    r.success = true → r.errors = [] := by
  unfold bsisscript_fsm at h
  cases hrp : st.read_path with
  | none => rw [hrp] at h; exact Except.noConfusion h
  | some rp =>
    rw [hrp] at h
    dsimp only [] at h
    by_cases hs : st.started = true
    case neg =>
      rw [if_neg hs] at h
      simp only [Except.ok.injEq, Prod.mk.injEq] at h
      rw [← h.1]; intro hx; simp at hx
    case pos =>
      rw [if_pos hs] at h
      by_cases hr : st.readsomething = true
      case neg =>
        rw [if_neg hr] at h
        simp only [Except.ok.injEq, Prod.mk.injEq] at h
        rw [← h.1]; intro hx; simp at hx
      case pos =>
        rw [if_pos hr] at h
        simp only [Except.ok.injEq, Prod.mk.injEq] at h
        intro hsucc
        rw [← h.1] at hsucc ⊢
        rw [runWSteps_success] at hsucc
        rw [runWSteps_errors]
        simp only [Bool.true_and] at hsucc
        rw [stepErrors_nil_of_and o _ hinv (fsmSteps_okInv a b rp) 0 hsucc]
        rfl

theorem ok_bsisscript_lgate (st : SisState) (a : Bool) (lib : String) (o : Nat → CmdRes)
    (hinv : ∀ j, (o j).success = true → (o j).errors = [])
    (r : WfRes) (tr : List String)
    (h : bsisscript_lgate st a lib o = .ok (r, tr)) :
    r.success = true → r.errors = [] := by
  unfold bsisscript_lgate at h
  cases hrp : st.read_path with
  | none => rw [hrp] at h; exact Except.noConfusion h
  | some rp =>
    rw [hrp] at h
    dsimp only [] at h
    by_cases hs : st.started = true
    case neg =>
      rw [if_neg hs] at h
      simp only [Except.ok.injEq, Prod.mk.injEq] at h
      rw [← h.1]; intro hx; simp at hx
    case pos =>
      rw [if_pos hs] at h
      by_cases hr : st.readsomething = true
      case neg =>
        rw [if_neg hr] at h
        simp only [Except.ok.injEq, Prod.mk.injEq] at h
        rw [← h.1]; intro hx; simp at hx
      case pos =>
        rw [if_pos hr] at h
        simp only [Except.ok.injEq, Prod.mk.injEq] at h
        intro hsucc
        rw [← h.1] at hsucc ⊢
        rw [runWSteps_success] at hsucc
        rw [runWSteps_errors]
        simp only [Bool.true_and] at hsucc
        rw [stepErrors_nil_of_and o _ hinv (lgateSteps_okInv a lib rp) 0 hsucc]
        rfl

theorem ok_bsisscript_fsmd (st : SisState) (a : Bool) (o : Nat → CmdRes)
    (hinv : ∀ j, (o j).success = true → (o j).errors = [])
    (r : WfRes) (tr : List String)
    (h : bsisscript_fsmd st a o = .ok (r, tr)) :
    r.success = true → r.errors = [] :=
  ok_bsisscript_lgate st a "synch" o hinv r tr h

theorem stop_preserves (st : SisState) (a1 a2 : Bool) :
    ((stop st a1 a2).2).readsomething = st.readsomething ∧
    ((stop st a1 a2).2).read_path = st.read_path := by
  unfold stop
  (repeat' split) <;> exact ⟨rfl, rfl⟩

theorem start_preserves (st : SisState) (env : StartEnv) :
    ((start st env).2).readsomething = st.readsomething ∧
    ((start st env).2).read_path = st.read_path := by
  unfold start
  by_cases hs : st.started = true
  · simp [hs]
  · cases env with
    | spawnFail => simp [hs]
    | spawned w =>
      by_cases hw : (wait_end_command "" w).success = true <;> simp [hs, hw]

theorem reset_preserves (st : SisState) (a1 a2 : Bool) (env : StartEnv) :
    ((reset st a1 a2 env).2).readsomething = st.readsomething ∧
    ((reset st a1 a2 env).2).read_path = st.read_path := by
  have h1 := stop_preserves st a1 a2
  have h2 := start_preserves (stop st a1 a2).2 env
  unfold reset
  by_cases hs : ((stop st a1 a2).1).success = true
  · rw [if_pos hs]
    by_cases hb : ((start (stop st a1 a2).2 env).1).success = true
    · rw [if_pos hb]
      exact ⟨by rw [show ((_, (start (stop st a1 a2).2 env).2) : OpRes × SisState).2 =
        (start (stop st a1 a2).2 env).2 from rfl, h2.1, h1.1],
        by rw [show ((_, (start (stop st a1 a2).2 env).2) : OpRes × SisState).2 =
        (start (stop st a1 a2).2 env).2 from rfl, h2.2, h1.2]⟩
    · rw [if_neg hb]
      exact ⟨by rw [show ((_, (start (stop st a1 a2).2 env).2) : OpRes × SisState).2 =
        (start (stop st a1 a2).2 env).2 from rfl, h2.1, h1.1],
        by rw [show ((_, (start (stop st a1 a2).2 env).2) : OpRes × SisState).2 =
        (start (stop st a1 a2).2 env).2 from rfl, h2.2, h1.2]⟩
  · rw [if_neg hs]
    exact h1

/-- C3 (amended): `reset` never touches the `readsomething` flag (the
spec's `hasInput`) nor `read_path` (the spec's `lastInputPath`): both
survive a reset unchanged, whatever the stop/start oracles do; only
constructing a fresh wrapper initializes `readsomething` to false. -/
theorem C3_amended (st : SisState) (a1 a2 : Bool) (env : StartEnv) :
    ((reset st a1 a2 env).2).readsomething = st.readsomething ∧
    ((reset st a1 a2 env).2).read_path = st.read_path :=
  reset_preserves st a1 a2 env

/-- C3 (counterexample to the claim as stated): a session that has read
input (`readsomething = true`) still has `readsomething = true` after a
fully successful `reset()`; the claim says reset re-initializes the
flag to false. -/
theorem C3_counterexample :
    ((reset ⟨true, true, some "/tmp/and.blif"⟩ false false
        (.spawned (.prompt [] "banner"))).1).success = true ∧
    ((reset ⟨true, true, some "/tmp/and.blif"⟩ false false
        (.spawned (.prompt [] "banner"))).2).readsomething = true :=
  ⟨rfl, rfl⟩

/-- C4 (amended): when the stream closes (EOF) before a marker is seen,
`wait_end_command` reports success, so `exec` returns a successful
result with empty errors and no stdout for every command — termination
command or not; no UnexpectedEnd error is produced.  The only
distinction for `quit`/`exit` is the engine-level side effect: the
`started` flag is cleared exactly for those commands. -/
theorem C4_amended (st : SisState) (cmd : String) (hs : st.started = true) :
    (exec st cmd .eof).1 = { success := true, errors := [], stdout := none } ∧
    ((exec st cmd .eof).2).started =
      !(decide (pyStrip cmd = "quit") || decide (pyStrip cmd = "exit")) := by
  unfold exec wait_end_command
  rw [if_pos hs]
  by_cases hq : (decide (pyStrip cmd = "quit") || decide (pyStrip cmd = "exit")) = true
  · simp [hq]
  · simp only [Bool.not_eq_true] at hq
    simp [hq, hs]

/-- C4 witness: the amended statement at a concrete non-termination
command. -/
theorem C4_witness :
    (exec ⟨true, true, some "/tmp/and.blif"⟩ "print_stats" .eof).1 =
      { success := true, errors := [], stdout := none } ∧
    ((exec ⟨true, true, some "/tmp/and.blif"⟩ "print_stats" .eof).2).started =
      !(decide (pyStrip "print_stats" = "quit") || decide (pyStrip "print_stats" = "exit")) :=
  C4_amended ⟨true, true, some "/tmp/and.blif"⟩ "print_stats" rfl

/-- C4 (counterexample to the claim as stated): for the non-termination
command `print_stats`, a stream close before any marker yields a
successful result with empty errors — not a failed result with an
UnexpectedEnd error as the claim requires. -/
theorem C4_counterexample :
    ((exec ⟨true, true, some "/tmp/and.blif"⟩ "print_stats" .eof).1).success = true ∧
    ((exec ⟨true, true, some "/tmp/and.blif"⟩ "print_stats" .eof).1).errors = [] :=
  ⟨rfl, rfl⟩

/-- C2 (code bug): with `hasInput = false` the session has
`read_path = None` (they are only ever set together), and every named
workflow then raises `TypeError` from the unguarded
`os.path.dirname(self.read_path)` (lines 725 and 936) before reaching
the guard that would return the NothingToProcess envelope; the guard
itself is only reachable in the counterfactual state where `read_path`
is set while `readsomething` is false, in which case the failure
envelope is returned with no step performed (empty command trace). -/
theorem C2_code_bug :
    bsisscript_fsm ⟨true, false, none⟩ true true (fun _ => okStep) = .error .typeError ∧
    bsisscript_fsm ⟨true, false, none⟩ false false (fun _ => okStep) = .error .typeError ∧
    bsisscript_lgate ⟨true, false, none⟩ true "mcnc" (fun _ => okStep) = .error .typeError ∧
    bsisscript_fsmd ⟨true, false, none⟩ true (fun _ => okStep) = .error .typeError ∧
    bsisscript_fsm ⟨true, false, some "/tmp/and.blif"⟩ true true (fun _ => okStep) =
      .ok ({ success := false, output := [],
             errors := ["[ERROR][BSISSCRIPT_FSM] Nothing to optimize and map (missing an input, use read_blif or another read command)"],
             stdout := "" }, []) :=
  ⟨rfl, rfl, rfl, rfl, rfl⟩

/-- C1 (counterexample to the claim as stated): `script_rugged` on a
running session with input, whose engine call succeeds but leaves
residual output, returns `success = false` with an empty `errors`
sequence — a failure path that appends no error string. -/
theorem C1_counterexample :
    ((script_rugged ⟨true, true, some "/tmp/and.blif"⟩ (.prompt [] "x")).1).success = false ∧
    ((script_rugged ⟨true, true, some "/tmp/and.blif"⟩ (.prompt [] "x")).1).errors = [] :=
  ⟨rfl, rfl⟩

/-- C6 (counterexample to the claim as stated): in a `bsisscript_lgate`
run where both intermediate `write_blif` exports fail (oracle slots 3
and 7) and every other step succeeds, the overall result is
`success = true` with no errors: the file-export steps' outcomes are
not part of the aggregated success flag and their errors are not
appended. -/
theorem C6_counterexample :
    (c6Oracle 3).success = false ∧ (c6Oracle 7).success = false ∧
    (bsisscript_lgate ⟨true, true, some "/tmp/and.blif"⟩ true "mcnc" c6Oracle).map
      (fun x => (x.1.success, x.1.errors)) = .ok (true, []) :=
  ⟨rfl, rfl, rfl⟩

/-- C7 (counterexample to the claim as stated): on the raw output
`"and pi=2 po=1 nodes=1 latches=0\nlits(sop)=2\n"` — with bare `\n`
separators, exactly as the claim writes it — the statistics parser does
not succeed: the stripped text splits on `"\r\n"` into one piece, so
the parser fails with the unexpected-shape error and no record. -/
theorem C7_counterexample :
    printStatsParse "and pi=2 po=1 nodes=1 latches=0\nlits(sop)=2\n" =
      { success := false, output := none,
        errors := ["[ERROR][PRINT_STATS] Something went wrong during print_stats execution"],
        stdout := some "and pi=2 po=1 nodes=1 latches=0\nlits(sop)=2\n" } :=
  rfl

/-- C1 (amended): for every operation of the wrapper, `success = true`
implies the `errors` sequence is empty (equivalently, a non-empty
`errors` sequence implies `success = false`).  The converse direction of
the claim fails: see the counterexample (`script_rugged` and
`stg_to_network` report `success = false` with empty `errors` when the
engine call succeeds but leaves residual output; `write_blif` and
`write_eqn`, by contrast, do append an error string in that case).  For
the workflows the statement is relative to the same invariant holding
for the step results the process returns. -/
theorem C1_amended :
    (∀ st env, ((start st env).1).success = true → ((start st env).1).errors = []) ∧
    (∀ st a1 a2, ((stop st a1 a2).1).success = true → ((stop st a1 a2).1).errors = []) ∧
    (∀ st a1 a2 env, ((reset st a1 a2 env).1).success = true →
        ((reset st a1 a2 env).1).errors = []) ∧
    (∀ cmd w, (wait_end_command cmd w).success = true → (wait_end_command cmd w).errors = []) ∧
    (∀ st cmd w, ((exec st cmd w).1).success = true → ((exec st cmd w).1).errors = []) ∧
    (∀ st realp isfile t_changedir t_append a1 a2 env w r st',
        read_blif st realp isfile t_changedir t_append a1 a2 env w = .ok (r, st') →
        r.success = true → r.errors = []) ∧
    (∀ st realp isfile t_changedir t_append a1 a2 env w r st',
        read_eqn st realp isfile t_changedir t_append a1 a2 env w = .ok (r, st') →
        r.success = true → r.errors = []) ∧
    (∀ st t_file t_params w, ((write_blif st t_file t_params w).1).success = true →
        ((write_blif st t_file t_params w).1).errors = []) ∧
    (∀ st t_file t_params w, ((write_eqn st t_file t_params w).1).success = true →
        ((write_eqn st t_file t_params w).1).errors = []) ∧
    (∀ st w, ((script_rugged st w).1).success = true → ((script_rugged st w).1).errors = []) ∧
    (∀ st w, ((stg_to_network st w).1).success = true → ((stg_to_network st w).1).errors = []) ∧
    (∀ st w r st', print_stats st w = .ok (r, st') → r.success = true → r.errors = []) ∧
    (∀ st inputs w ws r st2 tr, simulate st inputs w ws = (.ok (r, st2), tr) →
        r.success = true → r.errors = []) ∧
    (∀ st a b o, (∀ j, ((o j : CmdRes)).success = true → (o j).errors = []) →
        ∀ r tr, bsisscript_fsm st a b o = .ok (r, tr) → r.success = true → r.errors = []) ∧
    (∀ st a lib o, (∀ j, ((o j : CmdRes)).success = true → (o j).errors = []) →
        ∀ r tr, bsisscript_lgate st a lib o = .ok (r, tr) → r.success = true → r.errors = []) ∧
    (∀ st a o, (∀ j, ((o j : CmdRes)).success = true → (o j).errors = []) →
        ∀ r tr, bsisscript_fsmd st a o = .ok (r, tr) → r.success = true → r.errors = []) :=
  ⟨ok_start, ok_stop, ok_reset, ok_wait, ok_exec,
   fun st realp isfile tc ta a1 a2 env w r st' h => ok_read_blif st realp isfile tc ta a1 a2 env w r st' h,
   fun st realp isfile tc ta a1 a2 env w r st' h => ok_read_eqn st realp isfile tc ta a1 a2 env w r st' h,
   ok_write_blif, ok_write_eqn, ok_script_rugged, ok_stg_to_network,
   fun st w r st' h => ok_print_stats st w r st' h,
   fun st inputs w ws r st2 tr h => ok_simulate st inputs w ws r st2 tr h,
   fun st a b o hinv r tr h => ok_bsisscript_fsm st a b o hinv r tr h,
   fun st a lib o hinv r tr h => ok_bsisscript_lgate st a lib o hinv r tr h,
   fun st a o hinv r tr h => ok_bsisscript_fsmd st a o hinv r tr h⟩

/-- C1 witness: the invariant applied at a concrete input — a
`script_rugged` call whose engine interaction ends at EOF succeeds, and
the theorem yields its empty error list. -/
theorem C1_witness :
    ((script_rugged ⟨true, true, some "/tmp/and.blif"⟩ .eof).1).errors = [] :=
  C1_amended.2.2.2.2.2.2.2.2.2.1 ⟨true, true, some "/tmp/and.blif"⟩ .eof rfl

/-- C5 (counterexample to the claim as stated): `bsis_script foo` is a
malformed variant of a recognized command shape that the classifier
does not match, yet it does not fall through to raw execution: the
dispatcher answers with the Unexpected-bsis_script-parameter error
envelope and no engine call. -/
theorem C5_counterexample :
    classify "bsis_script foo" = Dispatch.bsisError ∧
    Dispatch.bsisError ≠ Dispatch.execRaw "bsis_script foo" :=
  ⟨rfl, by decide⟩

/-- C5 (amended): a raw command that matches none of the recognized
shapes and — unlike in the claim — does not begin with `bsis_script`
falls through verbatim (stripped) to raw execution; a `bsis_script`
command with an unrecognized parameter instead yields the error
envelope. -/
theorem C5_amended (t_command : String)
    (h1 : reMatch1 rbPatA (pyStrip t_command) = none)
    (h2 : reMatch1 rbPatB (pyStrip t_command) = none)
    (h3 : reMatch1 rbPat (pyStrip t_command) = none)
    (h4 : reMatch1 rePatA (pyStrip t_command) = none)
    (h5 : reMatch1 rePatB (pyStrip t_command) = none)
    (h6 : reMatch1 rePat (pyStrip t_command) = none)
    (h7 : reMatch1 wbPat (pyStrip t_command) = none)
    (h8 : reMatch1 wePat (pyStrip t_command) = none)
    (h9 : pyStrip t_command ≠ "source script.rugged")
    (h10 : pyStrip t_command ≠ "print_stats")
    (h11 : reMatch1 simulatePat (pyStrip t_command) = none)
    (h12 : reMatch1 simPat (pyStrip t_command) = none)
    (h13 : pyStartsWith (pyStrip t_command) "bsis_script" = false)
    (h14 : pyStrip t_command ≠ "stg_to_network") :
    classify t_command = Dispatch.execRaw (pyStrip t_command) := by
  unfold classify classifyStripped
  simp only [h1, h2, h3, h4, h5, h6, h7, h8]
  rw [if_neg h9, if_neg h10]
  simp only [h11, h12, h13, Bool.false_eq_true, if_false]
  rw [if_neg h14]

/-- C5 witness: a command the classifier does not recognize falls
through to raw execution unchanged. -/
theorem C5_witness : classify "full_simplify -d" = Dispatch.execRaw "full_simplify -d" :=
  C5_amended "full_simplify -d" rfl rfl rfl rfl rfl rfl rfl rfl (by decide) (by decide)
    rfl rfl rfl (by decide)

/-- C6 (amended): in every workflow run with input present, the
commands sent to the process are the fixed planned sequence
(`plannedCmds`), independent of any step's result — a later step still
executes when an earlier one failed; each aggregated step's errors are
appended in order (`stepErrors`); and the overall success flag is the
logical AND of the aggregated steps' success flags (`stepResultsAnd`) —
which, per the counterexample, excludes the intermediate `write_blif`
file-export steps, whose results the code discards. -/
theorem C6_amended (st : SisState) (rp : String) (o : Nat → CmdRes)
    (autoencoding opt_area area2 : Bool) (library : String)
    (hs : st.started = true) (hr : st.readsomething = true)
    (hp : st.read_path = some rp) :
    ((bsisscript_fsm st autoencoding opt_area o).map
        (fun x => (x.1.success, x.1.errors, x.2)) =
      .ok (stepResultsAnd o (fsmSteps autoencoding opt_area rp) 0,
           stepErrors o (fsmSteps autoencoding opt_area rp) 0,
           plannedCmds (fsmSteps autoencoding opt_area rp))) ∧
    ((bsisscript_lgate st area2 library o).map
        (fun x => (x.1.success, x.1.errors, x.2)) =
      .ok (stepResultsAnd o (lgateSteps area2 library rp) 0,
           stepErrors o (lgateSteps area2 library rp) 0,
           plannedCmds (lgateSteps area2 library rp))) := by
  constructor
  · unfold bsisscript_fsm
    rw [hp]
    dsimp only []
    rw [if_pos hs, if_pos hr]
    simp only [Except.map, runWSteps_success, runWSteps_errors, runWSteps_trace,
      Bool.true_and, List.nil_append]
  · unfold bsisscript_lgate
    rw [hp]
    dsimp only []
    rw [if_pos hs, if_pos hr]
    simp only [Except.map, runWSteps_success, runWSteps_errors, runWSteps_trace,
      Bool.true_and, List.nil_append]

/-- C6 witness: the amended statement at a concrete session and oracle. -/
theorem C6_witness :
    ((bsisscript_fsm ⟨true, true, some "/tmp/and.blif"⟩ true true (fun _ => okStep)).map
        (fun x => (x.1.success, x.1.errors, x.2)) =
      .ok (stepResultsAnd (fun _ => okStep) (fsmSteps true true "/tmp/and.blif") 0,
           stepErrors (fun _ => okStep) (fsmSteps true true "/tmp/and.blif") 0,
           plannedCmds (fsmSteps true true "/tmp/and.blif"))) ∧
    ((bsisscript_lgate ⟨true, true, some "/tmp/and.blif"⟩ false "synch" (fun _ => okStep)).map
        (fun x => (x.1.success, x.1.errors, x.2)) =
      .ok (stepResultsAnd (fun _ => okStep) (lgateSteps false "synch" "/tmp/and.blif") 0,
           stepErrors (fun _ => okStep) (lgateSteps false "synch" "/tmp/and.blif") 0,
           plannedCmds (lgateSteps false "synch" "/tmp/and.blif"))) :=
  C6_amended ⟨true, true, some "/tmp/and.blif"⟩ "/tmp/and.blif" (fun _ => okStep)
    true true false "synch" rfl rfl rfl

/-- C7 (amended): the statistics parser's line separator is `"\r\n"`:
on the raw output `"and pi=2 po=1 nodes=1 latches=0\r\nlits(sop)=2\r\n"`
it succeeds with the record named in the claim, and whenever the
stripped raw output does not split on `"\r\n"` into exactly two pieces
it fails with the unexpected-output-shape error and no record. -/
theorem C7_amended :
    (printStatsParse "and pi=2 po=1 nodes=1 latches=0\r\nlits(sop)=2\r\n" =
      { success := true,
        output := some { name := "and", pi := 2, po := 1, nodes := 1,
                         latches := 0, lits := 2, states := 0 },
        errors := [],
        stdout := some "and pi=2 po=1 nodes=1 latches=0\r\nlits(sop)=2\r\n" }) ∧
    (∀ s : String, (splitCRLF (pyStrip s)).length ≠ 2 →
      printStatsParse s =
        { success := false, output := none,
          errors := ["[ERROR][PRINT_STATS] Something went wrong during print_stats execution"],
          stdout := some s }) := by
  constructor
  · rfl
  · intro s hlen
    unfold printStatsParse
    rcases hsp : splitCRLF (pyStrip s) with _ | ⟨a, _ | ⟨b, _ | ⟨c, rest⟩⟩⟩
    · rfl
    · rfl
    · rw [hsp] at hlen; simp at hlen
    · rfl

/-- C7 witness: the shape-failure half of the amended statement at a
concrete three-line output. -/
theorem C7_witness :
    printStatsParse "a\r\nb\r\nc" =
      { success := false, output := none,
        errors := ["[ERROR][PRINT_STATS] Something went wrong during print_stats execution"],
        stdout := some "a\r\nb\r\nc" } :=
  C7_amended.2 "a\r\nb\r\nc" (by decide)

theorem errOf_nil_iff (msgs : List String) :
    errOf msgs = [] ↔ msgs.any (fun m => !pyStartsWith (pyStrip m) "Warning: ") = false := by
  constructor
  · intro h
    rw [List.any_eq_false]
    intro m hm
    intro hcontra
    have : m ∈ msgs.filter (fun m => !pyStartsWith (pyStrip m) "Warning: ") :=
      List.mem_filter.mpr ⟨hm, hcontra⟩
    rw [show msgs.filter (fun m => !pyStartsWith (pyStrip m) "Warning: ") = [] from by
      have := congrArg List.length h
      simp only [errOf, List.length_map] at this
      exact List.eq_nil_of_length_eq_zero (by simpa using this)] at this
    simp at this
  · intro h
    rw [List.any_eq_false] at h
    unfold errOf
    rw [List.filter_eq_nil_iff.mpr (fun a ha => by simpa using h a ha)]
    rfl

/-- C8 (amended): for a read of an existing file on a running session
whose engine call succeeds with output `s`: each line of `s` (split on
`"\r\n"`) whose strip begins with `"Warning: "` becomes a warning;
every other line — the empty lines produced by consecutive separators
included, which is where the claim's "non-empty" qualification fails —
becomes a blocking error; the operation succeeds iff there is no such
non-warning line, and on success it sets `readsomething` and records
the resolved path in `read_path`. -/
theorem C8_amended (st : SisState) (realp : String) (t_changedir t_append a1 a2 : Bool)
    (env : StartEnv) (w : WaitOutcome) (s : String)
    (hs : st.started = true)
    (he : (exec (if t_changedir then (reset st a1 a2 env).2 else st)
             (readBlifCmdStr t_append realp) w).1 =
          { success := true, errors := [], stdout := some s })
    (hne : s ≠ "") :
    (read_blif st realp true t_changedir t_append a1 a2 env w =
      .ok ({ success := !((splitCRLF s).any (fun m => !pyStartsWith (pyStrip m) "Warning: ")),
             errors := errOf (splitCRLF s),
             warnings := some (warnOf (splitCRLF s)),
             stdout := some s },
           if (splitCRLF s).any (fun m => !pyStartsWith (pyStrip m) "Warning: ") = true then
             (if t_changedir then (reset st a1 a2 env).2 else st)
           else
             { (if t_changedir then (reset st a1 a2 env).2 else st) with
                 readsomething := true, read_path := some realp })) ∧
    (((splitCRLF s).any (fun m => !pyStartsWith (pyStrip m) "Warning: ") = false) ↔
      errOf (splitCRLF s) = []) := by
  refine ⟨?_, (errOf_nil_iff (splitCRLF s)).symm⟩
  have hst2 : (exec (if t_changedir then (reset st a1 a2 env).2 else st)
      (readBlifCmdStr t_append realp) w).2 =
      (if t_changedir then (reset st a1 a2 env).2 else st) := by
    rcases exec_state_or (if t_changedir then (reset st a1 a2 env).2 else st)
        (readBlifCmdStr t_append realp) w with h | h
    · exact h
    · rw [he] at h; exact absurd h (by simp)
  unfold read_blif
  rw [if_pos hs, if_pos rfl]
  simp only []
  rw [show ((exec (if t_changedir then (reset st a1 a2 env).2 else st)
      (readBlifCmdStr t_append realp) w).1).success = true from by rw [he]]
  rw [if_pos rfl]
  rw [show ((exec (if t_changedir then (reset st a1 a2 env).2 else st)
      (readBlifCmdStr t_append realp) w).1).stdout = some s from by rw [he]]
  dsimp only []
  rw [if_neg hne]
  rw [processReadMessages_some_warnings (splitCRLF s) false [] [] (some s) false]
  dsimp only []
  by_cases hbad : (splitCRLF s).any (fun m => !pyStartsWith (pyStrip m) "Warning: ") = true
  · simp [hbad, hst2]
  · simp only [Bool.not_eq_true] at hbad
    simp [hbad, hst2]

/-- C8 witness: the amended statement at a concrete read whose output
is a single warning line. -/
theorem C8_witness :
    read_blif ⟨true, false, none⟩ "/tmp/and.blif" true false false false false
        .spawnFail (.prompt [] "Warning: latch crossing") =
      .ok ({ success := !((splitCRLF "Warning: latch crossing").any
               (fun m => !pyStartsWith (pyStrip m) "Warning: ")),
             errors := errOf (splitCRLF "Warning: latch crossing"),
             warnings := some (warnOf (splitCRLF "Warning: latch crossing")),
             stdout := some "Warning: latch crossing" },
           if (splitCRLF "Warning: latch crossing").any
               (fun m => !pyStartsWith (pyStrip m) "Warning: ") = true then
             (if false then (reset ⟨true, false, none⟩ false false .spawnFail).2
              else ⟨true, false, none⟩)
           else
             { (if false then (reset ⟨true, false, none⟩ false false .spawnFail).2
                else (⟨true, false, none⟩ : SisState)) with
                 readsomething := true, read_path := some "/tmp/and.blif" }) :=
  (C8_amended ⟨true, false, none⟩ "/tmp/and.blif" false false false false
    .spawnFail (.prompt [] "Warning: latch crossing") "Warning: latch crossing"
    rfl rfl (by decide)).1

/-- C8 (counterexample to the claim as stated): a read whose output is
two warning lines separated by a blank line (consecutive `"\r\n"`
separators) has zero non-empty non-warning lines, yet the operation
fails: the empty line is appended as a blocking error string. -/
theorem C8_counterexample :
    read_blif ⟨true, false, none⟩ "/tmp/and.blif" true false false false false
        .spawnFail (.prompt [] "Warning: a\r\n\r\nWarning: b") =
      .ok ({ success := false, errors := [""],
             warnings := some ["Warning: a", "Warning: b"],
             stdout := some "Warning: a\r\n\r\nWarning: b" },
           ⟨true, false, none⟩) ∧
    ((splitCRLF "Warning: a\r\n\r\nWarning: b").filter
        (fun l => !(l = "") && !pyStartsWith (pyStrip l) "Warning: ")) = [] :=
  ⟨rfl, rfl⟩

theorem dropWhile_reverse_cons (p : Char → Bool) (xs : List Char) (c : Char)
    (h : xs.reverse.dropWhile p ≠ []) :
    ((c :: xs).reverse.dropWhile p).reverse = c :: (xs.reverse.dropWhile p).reverse := by
  rw [List.reverse_cons, List.dropWhile_append]
  rw [if_neg (by simpa using h)]
  rw [List.reverse_append]
  rfl

theorem simNormalize_rejoin_list (l : List Char) (hl : ∀ c ∈ l, c = '0' ∨ c = '1') :
    stripList isPyWs ((l.map (fun c => [c, ' '])).flatten) = specRejoin l := by
  induction l with
  | nil => rfl
  | cons c rest ih =>
    have hc := hl c (by simp)
    cases rest with
    | nil => rcases hc with rfl | rfl <;> rfl
    | cons d rest2 =>
      have hd := hl d (by simp)
      have ihr := ih (fun x hx => hl x (by simp [hx]))
      have hcw : isPyWs c = false := by rcases hc with rfl | rfl <;> rfl
      have hdw : isPyWs d = false := by rcases hd with rfl | rfl <;> rfl
      set T := (((d :: rest2).map (fun c => [c, ' '])).flatten) with hT
      have hThead : T = d :: ' ' :: ((rest2.map (fun c => [c, ' '])).flatten) := by
        rw [hT]; rfl
      have hTdrop : T.dropWhile isPyWs = T := by
        rw [hThead]; rw [List.dropWhile_cons_of_neg (by simp [hdw])]
      have hstripT : (T.reverse.dropWhile isPyWs).reverse = specRejoin (d :: rest2) := by
        have : stripList isPyWs T = specRejoin (d :: rest2) := ihr
        rw [stripList, hTdrop] at this
        exact this
      have hTne : T.reverse.dropWhile isPyWs ≠ [] := by
        intro hnil
        rw [hnil] at hstripT
        have hcon : specRejoin (d :: rest2) = [] := by simpa using hstripT.symm
        cases rest2 <;> simp [specRejoin] at hcon
      have hSpNe : (' ' :: T).reverse.dropWhile isPyWs ≠ [] := by
        rw [List.reverse_cons, List.dropWhile_append, if_neg (by simpa using hTne)]
        simp
      have step1 : ((c :: ' ' :: T).reverse.dropWhile isPyWs).reverse =
          c :: ((' ' :: T).reverse.dropWhile isPyWs).reverse :=
        dropWhile_reverse_cons isPyWs (' ' :: T) c hSpNe
      have step2 : ((' ' :: T).reverse.dropWhile isPyWs).reverse =
          ' ' :: (T.reverse.dropWhile isPyWs).reverse :=
        dropWhile_reverse_cons isPyWs T ' ' hTne
      rw [show ((c :: d :: rest2).map (fun c => [c, ' '])).flatten = c :: ' ' :: T from by
        rw [hT]; rfl]
      rw [stripList, List.dropWhile_cons_of_neg (by simp [hcw])]
      rw [step1, step2, hstripT]
      rfl

/-- C9: (1) a simulation argument with any character other than `0`,
`1` or space makes `simulate` fail with the invalid-inputs error and an
empty command trace — nothing is sent to the process; (2) for an
argument of only those characters, the first (and only simulation)
command sent is `simulate` followed by the normalized digits; (3) the
normalization is exactly the spec's "digits re-joined with single
spaces". -/
theorem C9_theorem :
    (∀ st inputs w ws, st.started = true → st.readsomething = true →
      simChars inputs = false →
      simulate st inputs w ws =
        (.ok ({ success := false, output := none,
                errors := ["[ERROR][SIMULATE] Invalid inputs (accepted inputs are made of 1s and 0s)"],
                stdout := none }, st), [])) ∧
    (∀ st inputs w ws, st.started = true → st.readsomething = true →
      simChars inputs = true →
      ((simulate st inputs w ws).2).head? = some ("simulate " ++ simNormalize inputs)) ∧
    (∀ inputs, simChars inputs = true →
      (simNormalize inputs).data =
        specRejoin (inputs.data.filter (fun c => c = '0' || c = '1'))) := by
  refine ⟨?_, ?_, ?_⟩
  · intro st inputs w ws hs hr hv
    unfold simulate
    rw [if_pos hs, if_pos hr, if_neg (by simp [hv])]
  · intro st inputs w ws hs hr hv
    unfold simulate
    rw [if_pos hs, if_pos hr, if_pos hv]
    simp only []
    by_cases he : ((exec st ("simulate " ++ simNormalize inputs) w).1).success = true
    · simp only [he, if_true]
      cases ho : ((exec st ("simulate " ++ simNormalize inputs) w).1).stdout with
      | none => simp [ho]
      | some s =>
        simp only [ho]
        (repeat' split) <;> simp
    · rw [if_neg he]
      rfl
  · intro inputs hv
    have hl : ∀ c ∈ inputs.data.filter (fun c => c = '0' || c = '1'), c = '0' ∨ c = '1' := by
      intro c hc
      have := (List.mem_filter.mp hc).2
      simpa using this
    have := simNormalize_rejoin_list (inputs.data.filter (fun c => c = '0' || c = '1')) hl
    simpa [simNormalize, pyStrip] using this

/-- C9 witness: the three parts at concrete arguments, `"102x"` for the
rejected pattern and `"0  1"` for the accepted one. -/
theorem C9_witness :
    simulate ⟨true, true, some "/tmp/and.blif"⟩ "102x" .eof .eof =
      (.ok ({ success := false, output := none,
              errors := ["[ERROR][SIMULATE] Invalid inputs (accepted inputs are made of 1s and 0s)"],
              stdout := none }, ⟨true, true, some "/tmp/and.blif"⟩), []) ∧
    ((simulate ⟨true, true, some "/tmp/and.blif"⟩ "0  1" (.prompt [] "out") .eof).2).head? =
      some ("simulate " ++ simNormalize "0  1") ∧
    (simNormalize "0  1").data = specRejoin ("0  1".data.filter (fun c => c = '0' || c = '1')) :=
  ⟨C9_theorem.1 ⟨true, true, some "/tmp/and.blif"⟩ "102x" .eof .eof rfl rfl rfl,
   C9_theorem.2.1 ⟨true, true, some "/tmp/and.blif"⟩ "0  1" (.prompt [] "out") .eof rfl rfl rfl,
   C9_theorem.2.2 "0  1" rfl⟩

/-- C10: read_eqn's result dictionary is initialized without the
`warnings` key (line 534, unlike read_blif's line 477): (1) any result
dictionary read_eqn manages to return still has no `warnings` entry,
and (2) whenever the command output contains a line beginning with
`"Warning: "`, read_eqn raises `KeyError` (the append at line 559 goes
through the absent key) instead of returning a result envelope. -/
theorem C10_theorem :
    (∀ st realp isfile t_changedir t_append a1 a2 env w r st',
      read_eqn st realp isfile t_changedir t_append a1 a2 env w = .ok (r, st') →
      r.warnings = none) ∧
    (∀ st realp t_changedir t_append a1 a2 env w s,
      st.started = true →
      (exec (if t_changedir then (reset st a1 a2 env).2 else st)
          (readEqnCmdStr t_append realp) w).1 =
        { success := true, errors := [], stdout := some s } →
      (splitCRLF s).any (fun m => pyStartsWith (pyStrip m) "Warning: ") = true →
      read_eqn st realp true t_changedir t_append a1 a2 env w = .error .keyError) := by
  constructor
  · intro st realp isfile t_changedir t_append a1 a2 env w r st' h
    unfold read_eqn at h
    by_cases hs : st.started = true
    case neg =>
      rw [if_neg hs] at h
      simp only [Except.ok.injEq, Prod.mk.injEq] at h
      rw [← h.1]
    case pos =>
      rw [if_pos hs] at h
      by_cases hf : isfile = true
      case neg =>
        rw [if_neg hf] at h
        simp only [Except.ok.injEq, Prod.mk.injEq] at h
        rw [← h.1]
      case pos =>
        rw [if_pos hf] at h
        simp only [] at h
        by_cases he : ((exec (if t_changedir then (reset st a1 a2 env).2 else st)
            (readEqnCmdStr t_append realp) w).1).success = true
        case neg =>
          rw [if_neg he] at h
          simp only [Except.ok.injEq, Prod.mk.injEq] at h
          rw [← h.1]
        case pos =>
          rw [if_pos he] at h
          cases ho : ((exec (if t_changedir then (reset st a1 a2 env).2 else st)
              (readEqnCmdStr t_append realp) w).1).stdout with
          | none =>
            rw [ho] at h
            simp only [Except.ok.injEq, Prod.mk.injEq] at h
            rw [← h.1]
          | some s =>
            rw [ho] at h
            dsimp only [] at h
            by_cases hempty : s = ""
            case pos =>
              rw [if_pos hempty] at h
              simp only [Except.ok.injEq, Prod.mk.injEq] at h
              rw [← h.1]
            case neg =>
              rw [if_neg hempty] at h
              cases hp : processReadMessages (splitCRLF s)
                  { success := false, errors := [], warnings := none, stdout := some s } false with
              | error e => rw [hp] at h; exact absurd h (by simp)
              | ok p =>
                rw [hp] at h
                rcases p with ⟨res2, found⟩
                have hw := processReadMessages_none_preserved (splitCRLF s) _ _ _ _ rfl hp
                cases found with
                | false =>
                  simp only [Bool.not_false, if_true] at h
                  simp only [Except.ok.injEq, Prod.mk.injEq] at h
                  rw [← h.1]
                  simpa using hw
                | true =>
                  simp only [Bool.not_true, Bool.false_eq_true, if_false] at h
                  simp only [Except.ok.injEq, Prod.mk.injEq] at h
                  rw [← h.1]
                  exact hw
  · intro st realp t_changedir t_append a1 a2 env w s hs he hany
    have hne : s ≠ "" := by
      intro h0
      subst h0
      exact absurd hany (by decide)
    unfold read_eqn
    rw [if_pos hs, if_pos rfl]
    simp only []
    rw [show ((exec (if t_changedir then (reset st a1 a2 env).2 else st)
        (readEqnCmdStr t_append realp) w).1).success = true from by rw [he]]
    rw [if_pos rfl]
    rw [show ((exec (if t_changedir then (reset st a1 a2 env).2 else st)
        (readEqnCmdStr t_append realp) w).1).stdout = some s from by rw [he]]
    dsimp only []
    rw [if_neg hne]
    rw [processReadMessages_none_warning_err (splitCRLF s) _ false rfl hany]

/-- C10 witness: a concrete read_eqn whose command output is a single
warning line raises KeyError. -/
theorem C10_witness :
    read_eqn ⟨true, false, none⟩ "/tmp/and.eqn" true false false false false
        .spawnFail (.prompt [] "Warning: latch crossing") = .error .keyError :=
  C10_theorem.2 ⟨true, false, none⟩ "/tmp/and.eqn" false false false false
    .spawnFail (.prompt [] "Warning: latch crossing") "Warning: latch crossing"
    rfl rfl (by decide)

theorem exec_preserves (st : SisState) (cmd : String) (w : WaitOutcome) :
    ((exec st cmd w).2).readsomething = st.readsomething ∧
    ((exec st cmd w).2).read_path = st.read_path := by
  unfold exec
  by_cases hs : st.started = true
  · simp only [hs, if_true]
    by_cases hw : (wait_end_command cmd w).success = true
    · simp only [hw, if_true]
      cases (wait_end_command cmd w).stdout with
      | some s => exact ⟨rfl, rfl⟩
      | none => constructor <;> ((repeat' split) <;> rfl)
    · simp [hw]
  · simp [hs]

/-- Support for C2's failing input: `readsomething = false` implies
`read_path = none` in every reachable session state.  The constructor
initializes both that way, and every state-mutating operation preserves
the implication — the reads are the only operations that touch the two
attributes, and they set `readsomething := true` whenever they set
`read_path`. -/
theorem hasInput_false_read_path_none_preserved :
    ((⟨false, false, none⟩ : SisState).readsomething = false →
      (⟨false, false, none⟩ : SisState).read_path = none) ∧
    (∀ st env, (st.readsomething = false → st.read_path = none) →
      ((start st env).2).readsomething = false → ((start st env).2).read_path = none) ∧
    (∀ st a1 a2, (st.readsomething = false → st.read_path = none) →
      ((stop st a1 a2).2).readsomething = false → ((stop st a1 a2).2).read_path = none) ∧
    (∀ st a1 a2 env, (st.readsomething = false → st.read_path = none) →
      ((reset st a1 a2 env).2).readsomething = false →
      ((reset st a1 a2 env).2).read_path = none) ∧
    (∀ st cmd w, (st.readsomething = false → st.read_path = none) →
      ((exec st cmd w).2).readsomething = false → ((exec st cmd w).2).read_path = none) ∧
    (∀ st realp isfile tc ta a1 a2 env w r st',
      (st.readsomething = false → st.read_path = none) →
      read_blif st realp isfile tc ta a1 a2 env w = .ok (r, st') →
      st'.readsomething = false → st'.read_path = none) ∧
    (∀ st realp isfile tc ta a1 a2 env w r st',
      (st.readsomething = false → st.read_path = none) →
      read_eqn st realp isfile tc ta a1 a2 env w = .ok (r, st') →
      st'.readsomething = false → st'.read_path = none) := by
  refine ⟨fun _ => rfl, ?_, ?_, ?_, ?_, ?_, ?_⟩
  · intro st env hinv h
    rw [(start_preserves st env).2]
    exact hinv (by rw [← (start_preserves st env).1]; exact h)
  · intro st a1 a2 hinv h
    rw [(stop_preserves st a1 a2).2]
    exact hinv (by rw [← (stop_preserves st a1 a2).1]; exact h)
  · intro st a1 a2 env hinv h
    rw [(reset_preserves st a1 a2 env).2]
    exact hinv (by rw [← (reset_preserves st a1 a2 env).1]; exact h)
  · intro st cmd w hinv h
    rw [(exec_preserves st cmd w).2]
    exact hinv (by rw [← (exec_preserves st cmd w).1]; exact h)
  · intro st realp isfile tc ta a1 a2 env w r st' hinv h
    have hinv1 : ((if tc then (reset st a1 a2 env).2 else st).readsomething = false →
        (if tc then (reset st a1 a2 env).2 else st).read_path = none) := by
      split
      · intro hx
        rw [(reset_preserves st a1 a2 env).2]
        exact hinv (by rw [← (reset_preserves st a1 a2 env).1]; exact hx)
      · exact hinv
    have hinv2 : (((exec (if tc then (reset st a1 a2 env).2 else st)
        (readBlifCmdStr ta realp) w).2).readsomething = false →
        ((exec (if tc then (reset st a1 a2 env).2 else st)
          (readBlifCmdStr ta realp) w).2).read_path = none) := by
      intro hx
      rw [(exec_preserves _ _ _).2]
      exact hinv1 (by rw [← (exec_preserves _ _ _).1]; exact hx)
    unfold read_blif at h
    by_cases hs : st.started = true
    case neg =>
      rw [if_neg hs] at h
      simp only [Except.ok.injEq, Prod.mk.injEq] at h
      rw [← h.2]; exact hinv
    case pos =>
      rw [if_pos hs] at h
      by_cases hf : isfile = true
      case neg =>
        rw [if_neg hf] at h
        simp only [Except.ok.injEq, Prod.mk.injEq] at h
        rw [← h.2]; exact hinv1
      case pos =>
        rw [if_pos hf] at h
        simp only [] at h
        by_cases he : ((exec (if tc then (reset st a1 a2 env).2 else st)
            (readBlifCmdStr ta realp) w).1).success = true
        case neg =>
          rw [if_neg he] at h
          simp only [Except.ok.injEq, Prod.mk.injEq] at h
          rw [← h.2]; exact hinv2
        case pos =>
          rw [if_pos he] at h
          cases ho : ((exec (if tc then (reset st a1 a2 env).2 else st)
              (readBlifCmdStr ta realp) w).1).stdout with
          | none =>
            rw [ho] at h
            simp only [Except.ok.injEq, Prod.mk.injEq] at h
            rw [← h.2]; intro hx; simp at hx
          | some s =>
            rw [ho] at h
            dsimp only [] at h
            by_cases hempty : s = ""
            case pos =>
              rw [if_pos hempty] at h
              simp only [Except.ok.injEq, Prod.mk.injEq] at h
              rw [← h.2]; intro hx; simp at hx
            case neg =>
              rw [if_neg hempty] at h
              cases hp : processReadMessages (splitCRLF s)
                  { success := false, errors := [], warnings := some [], stdout := some s } false with
              | error e => rw [hp] at h; exact absurd h (by simp)
              | ok p =>
                rw [hp] at h
                rcases p with ⟨res2, found⟩
                cases found with
                | false =>
                  simp only [Bool.not_false, if_true] at h
                  simp only [Except.ok.injEq, Prod.mk.injEq] at h
                  rw [← h.2]; intro hx; simp at hx
                | true =>
                  simp only [Bool.not_true, Bool.false_eq_true, if_false] at h
                  simp only [Except.ok.injEq, Prod.mk.injEq] at h
                  rw [← h.2]; exact hinv2
  · intro st realp isfile tc ta a1 a2 env w r st' hinv h
    have hinv1 : ((if tc then (reset st a1 a2 env).2 else st).readsomething = false →
        (if tc then (reset st a1 a2 env).2 else st).read_path = none) := by
      split
      · intro hx
        rw [(reset_preserves st a1 a2 env).2]
        exact hinv (by rw [← (reset_preserves st a1 a2 env).1]; exact hx)
      · exact hinv
    have hinv2 : (((exec (if tc then (reset st a1 a2 env).2 else st)
        (readEqnCmdStr ta realp) w).2).readsomething = false →
        ((exec (if tc then (reset st a1 a2 env).2 else st)
          (readEqnCmdStr ta realp) w).2).read_path = none) := by
      intro hx
      rw [(exec_preserves _ _ _).2]
      exact hinv1 (by rw [← (exec_preserves _ _ _).1]; exact hx)
    unfold read_eqn at h
    by_cases hs : st.started = true
    case neg =>
      rw [if_neg hs] at h
      simp only [Except.ok.injEq, Prod.mk.injEq] at h
      rw [← h.2]; exact hinv
    case pos =>
      rw [if_pos hs] at h
      by_cases hf : isfile = true
      case neg =>
        rw [if_neg hf] at h
        simp only [Except.ok.injEq, Prod.mk.injEq] at h
        rw [← h.2]; exact hinv1
      case pos =>
        rw [if_pos hf] at h
        simp only [] at h
        by_cases he : ((exec (if tc then (reset st a1 a2 env).2 else st)
            (readEqnCmdStr ta realp) w).1).success = true
        case neg =>
          rw [if_neg he] at h
          simp only [Except.ok.injEq, Prod.mk.injEq] at h
          rw [← h.2]; exact hinv2
        case pos =>
          rw [if_pos he] at h
          cases ho : ((exec (if tc then (reset st a1 a2 env).2 else st)
              (readEqnCmdStr ta realp) w).1).stdout with
          | none =>
            rw [ho] at h
            simp only [Except.ok.injEq, Prod.mk.injEq] at h
            rw [← h.2]; intro hx; simp at hx
          | some s =>
            rw [ho] at h
            dsimp only [] at h
            by_cases hempty : s = ""
            case pos =>
              rw [if_pos hempty] at h
              simp only [Except.ok.injEq, Prod.mk.injEq] at h
              rw [← h.2]; intro hx; simp at hx
            case neg =>
              rw [if_neg hempty] at h
              cases hp : processReadMessages (splitCRLF s)
                  { success := false, errors := [], warnings := none, stdout := some s } false with
              | error e => rw [hp] at h; exact absurd h (by simp)
              | ok p =>
                rw [hp] at h
                rcases p with ⟨res2, found⟩
                cases found with
                | false =>
                  simp only [Bool.not_false, if_true] at h
                  simp only [Except.ok.injEq, Prod.mk.injEq] at h
                  rw [← h.2]; intro hx; simp at hx
                | true =>
                  simp only [Bool.not_true, Bool.false_eq_true, if_false] at h
                  simp only [Except.ok.injEq, Prod.mk.injEq] at h
                  rw [← h.2]; exact hinv2
